import Mathlib

/-!
Verification development for the py-slippi-stats replay parser and
stat classifiers.

The definitions below are a shallow embedding of the Python sources:

* `src/slippistats/parse.py` — the binary event-stream decoder
  (`_parse_event`, `_parse_events`, `_parse_try`);
* `src/slippistats/stats/stats_computer.py` — the frame-sequential
  classifiers (`wavedash_compute`, `dash_compute`, `take_hit_compute`,
  `l_cancel_compute`);
* `src/slippistats/stats/combo_computer.py` — `combo_compute`;
* `src/slippistats/stats/stat_types.py` — the event-record dataclasses and
  `TakeHitData._find_valid_sdi`;
* `src/slippistats/enums/state.py` — the action-state constants and ranges.

Python floats are modelled as `Rat`, machine ints as `Int`/`Nat`, Python
exceptions as explicit error values (`Except`/`Option`), and Python's
negative list indexing by `pyGet` below.  Helper modules that the
repository imports but that are not part of the sources here
(`stats/common.py`, `event.py`, `enums/ground.py`) are modelled from the
specification; each such definition carries a doc comment saying so.
-/

/-! ## Python list indexing

The classifiers index `player.frames[i - 1]` (and `[i - 2]`) inside a loop
that starts at `i = 0`, so they rely on Python semantics: a negative index
`-k` resolves to the `k`-th element from the end, and an index out of range
(in either direction) raises `IndexError`.  `pyGet` returns `none` exactly
when Python would raise `IndexError`. -/

def pyGet (l : List α) (z : Int) : Option α :=
  if 0 ≤ z then
    l.get? z.toNat
  else
    if z.natAbs ≤ l.length then l.get? (l.length - z.natAbs) else none

theorem pyGet_nonneg (l : List α) (k : Nat) : pyGet l (k : Int) = l.get? k := by
  simp [pyGet]

theorem pyGet_lt_length (l : List α) (k : Nat) (h : k < l.length) :
    pyGet l (k : Int) = some (l.get ⟨k, h⟩) := by
  simp [pyGet, List.get?_eq_get h]

/-- Python `l[-1]` is the last element (when the list is non-empty). -/
theorem pyGet_neg_one (l : List α) (h : l ≠ []) :
    pyGet l (-1) = some (l.getLast h) := by
  have hlen : 0 < l.length := List.length_pos.mpr h
  have : (-1 : Int).natAbs = 1 := rfl
  simp only [pyGet, this]
  rw [if_neg (by omega), if_pos (by omega)]
  rw [List.getLast_eq_getElem]
  exact List.get?_eq_get (by omega)

/-- Python `l[-2]` is the second-to-last element (when the length is ≥ 2). -/
theorem pyGet_neg_two (l : List α) (h : 2 ≤ l.length) :
    pyGet l (-2) = some (l.get ⟨l.length - 2, by omega⟩) := by
  have : (-2 : Int).natAbs = 2 := rfl
  simp only [pyGet, this]
  rw [if_neg (by omega), if_pos (by omega)]
  exact List.get?_eq_get (by omega)

/-! ## Action-state constants

Taken from `src/slippistats/enums/state.py` (`ActionState`, `ActionRange`,
`LCancel`).  Only the constants the embedded classifiers mention are
reproduced. -/

def WAIT : Int := 14
def TURN : Int := 18
def DASH : Int := 20
def KNEE_BEND : Int := 24
def LAND_FALL_SPECIAL : Int := 43

def DAMAGE_START : Int := 75
def DAMAGE_END : Int := 91
def CAPTURE_START : Int := 223
def CAPTURE_END : Int := 232
def GUARD_START : Int := 178
def GUARD_END : Int := 182
def GUARD_BREAK_START : Int := 205
def GUARD_BREAK_END : Int := 211
def LEDGE_ACTION_START : Int := 252
def LEDGE_ACTION_END : Int := 263
def SQUAT_START : Int := 39
def SQUAT_END : Int := 41
def DOWN_START : Int := 183
def DOWN_END : Int := 198
def TECH_START : Int := 199
def TECH_END : Int := 204
def DODGE_START : Int := 233
def DODGE_END : Int := 236
def DYING_START : Int := 0
def DYING_END : Int := 10
def FALL_SPECIAL_START : Int := 35
def FALL_SPECIAL_END : Int := 37
def COMMAND_GRAB_RANGE1_START : Int := 266
def COMMAND_GRAB_RANGE1_END : Int := 304
def COMMAND_GRAB_RANGE2_START : Int := 327
def COMMAND_GRAB_RANGE2_END : Int := 338

/-- L-cancel status from `enums/state.py`: `NOT_APPLICABLE = 0`,
`SUCCESS = 1`, `FAILURE = 2`. -/
def LCANCEL_NOT_APPLICABLE : Nat := 0
def LCANCEL_SUCCESS : Nat := 1
def LCANCEL_FAILURE : Nat := 2

/-! ## Joystick regions

Modelled from the spec: the `JoystickRegion` enum and
`get_joystick_region` live in `stats/common.py`, which is not among the
sources.  The spec describes 9 discretized zones (8 directional plus a
dead zone) classified from the analog coordinates, and
`TakeHitData._find_valid_sdi` (which is among the sources) documents the
numbering convention its arithmetic relies on: the dead zone is `-1` and
the eight directional regions are numbered so that cardinals are even and
diagonals odd (`prev_stick_region % 2 == 0` is its cardinal branch). -/

def DEAD_ZONE : Int := -1
def REGION_UP : Int := 0
def REGION_UP_RIGHT : Int := 1
def REGION_RIGHT : Int := 2
def REGION_DOWN_RIGHT : Int := 3
def REGION_DOWN : Int := 4
def REGION_DOWN_LEFT : Int := 5
def REGION_LEFT : Int := 6
def REGION_UP_LEFT : Int := 7

/-- Modelled from the spec: `get_joystick_region` (in the absent
`stats/common.py`) discretizes an analog stick coordinate into one of the
9 regions; a coordinate whose magnitude is below the dead-zone threshold
counts as neutral on that axis, and both axes neutral is the dead zone. -/
def get_joystick_region (p : Rat × Rat) : Int :=
  let dz : Rat := mkRat 2875 10000
  let xr : Int := if p.1 ≥ dz then 1 else if p.1 ≤ -dz then -1 else 0
  let yr : Int := if p.2 ≥ dz then 1 else if p.2 ≤ -dz then -1 else 0
  if xr = 0 ∧ yr = 0 then DEAD_ZONE
  else if xr = 0 ∧ yr = 1 then REGION_UP
  else if xr = 1 ∧ yr = 1 then REGION_UP_RIGHT
  else if xr = 1 ∧ yr = 0 then REGION_RIGHT
  else if xr = 1 ∧ yr = -1 then REGION_DOWN_RIGHT
  else if xr = 0 ∧ yr = -1 then REGION_DOWN
  else if xr = -1 ∧ yr = -1 then REGION_DOWN_LEFT
  else if xr = -1 ∧ yr = 0 then REGION_LEFT
  else REGION_UP_LEFT

/-! ## SDI extraction

Embedding of `TakeHitData._find_valid_sdi` from
`src/slippistats/stats/stat_types.py` (lines 237-272).  The Python loop
walks `stick_regions_during_hitlag` by index, always comparing entry `i`
with entry `i - 1`; `sdiStep prev cur` is the loop body's decision whether
entry `i` (value `cur`, predecessor `prev`) is appended to `sdi_inputs`. -/

def sdiStep (prev cur : Int) : Bool :=
  -- `if i == 0 or stick_region == JoystickRegion.DEAD_ZONE: continue`
  if cur = DEAD_ZONE then false
  -- `if stick_region == prev_stick_region: continue`
  else if cur = prev then false
  -- `if prev_stick_region == JoystickRegion.DEAD_ZONE: append`
  else if prev = DEAD_ZONE then true
  -- `if prev_stick_region % 2 == 0: append`  (cardinal -> any region)
  else if prev.emod 2 = 0 then true
  -- `if prev_stick_region % 2 == 1:` (diagonal departure)
  else if cur.emod 2 = 1 then true
  -- `elif 3 <= abs(stick_region - prev_stick_region) < 7: append`
  else if 3 ≤ (cur - prev).natAbs ∧ (cur - prev).natAbs < 7 then true
  else false

/-- Walks the tail of the history, threading the immediately preceding
region exactly as the Python loop's `self.stick_regions_during_hitlag[i - 1]`
does (index 0 is skipped: it only ever serves as a predecessor). -/
def find_valid_sdi_aux (prev : Int) : List Int → List Int
  | [] => []
  | cur :: rest =>
    (if sdiStep prev cur then [cur] else []) ++ find_valid_sdi_aux cur rest

/-- Embedding of `TakeHitData._find_valid_sdi`: the `sdi_inputs` list
computed from the stored hitlag stick-region history. -/
def find_valid_sdi : List Int → List Int
  | [] => []
  | r0 :: rest => find_valid_sdi_aux r0 rest

theorem find_valid_sdi_aux_characterization (prev : Int) (l : List Int) :
    find_valid_sdi_aux prev l =
      ((prev :: l).zip l |>.filter (fun p => sdiStep p.1 p.2)).map Prod.snd := by
  induction l generalizing prev with
  | nil => rfl
  | cons cur rest ih =>
    simp only [find_valid_sdi_aux, List.zip_cons_cons, List.filter_cons]
    by_cases h : sdiStep prev cur
    · simp [h, ih cur]
    · simp [h, ih cur]

/-- Claim C8.  For every stored hitlag input history, the SDI extraction
never produces an entry from the very first recorded sample of the window,
and two consecutive identical stick regions never contribute two entries
to `sdi_inputs`.  Formally: (1) `sdi_inputs` is exactly the second
components of the consecutive pairs `(regions[i-1], regions[i])` accepted
by `sdiStep` — so every entry is drawn from an index `i ≥ 1`, never from
the first sample; (2) `sdiStep` rejects every pair of identical regions,
so an index whose region equals its predecessor's contributes no entry
(each index contributes at most one entry, hence an identical consecutive
pair contributes at most one entry, from the earlier index's own
transition); (3) the spec's scenario: the history
`[DEAD_ZONE, UP, UP, RIGHT]` yields `sdi_inputs == [UP, RIGHT]`. -/
theorem claim_C8_sdi_invariant :
    (∀ regions : List Int,
        find_valid_sdi regions =
          ((regions.zip regions.tail).filter (fun p => sdiStep p.1 p.2)).map Prod.snd)
    ∧ (∀ r : Int, sdiStep r r = false)
    ∧ find_valid_sdi [DEAD_ZONE, REGION_UP, REGION_UP, REGION_RIGHT] =
        [REGION_UP, REGION_RIGHT] := by
  refine ⟨?_, ?_, by decide⟩
  · intro regions
    cases regions with
    | nil => rfl
    | cons r0 rest => exact find_valid_sdi_aux_characterization r0 rest
  · intro r
    by_cases h : r = DEAD_ZONE <;> simp [sdiStep, h]

/-! ## Wavedash classifier

Embedding of `StatsComputer.wavedash_compute` from
`src/slippistats/stats/stats_computer.py` (lines 108-155).  One frame of
the player's data carries the fields the function reads: the post-frame
action state, whether the physical L or R trigger is in
`pre.buttons.physical.pressed()`, the stocks remaining, and the pre-frame
joystick coordinate. -/

structure WFrame where
  state : Int
  lHeld : Bool
  rHeld : Bool
  stocks : Nat
  joystick : Rat × Rat
deriving Repr, DecidableEq, Inhabited

/-- Embedding of `WavedashData` (`stat_types.py` lines 27-98), with the
fields its explicit `__init__` (lines 60-93) accepts and sets:
`frame_index`, `stocks_remaining`, `trigger_frame`, `stick`,
`airdodge_frames`, plus `waveland`.  The constructor derives
`angle`/`direction` from `stick` by `atan2`; those two fields are
transcendental functions of `stick`, so the raw `stick` is kept in
their place. -/
structure WavedashData where
  frame_index : Nat
  stocks_remaining : Nat
  stick : Rat × Rat
  trigger_frame : Nat
  airdodge_frames : Nat
  waveland : Bool
deriving Repr, DecidableEq, Inhabited

inductive PyErr where
  | indexError
  | unboundLocal
  | noneArith
  | attributeError
  | typeError
deriving Repr, DecidableEq

/-- Middle `for j in range(0, 5)` loop of `wavedash_compute`
(stats_computer.py lines 132-151): scan the landing frame and the 4
frames before it for a held L/R trigger.  On the first hit the source
calls `WavedashData(frame_index=i, stocks_remaining=..., r_frame=0,
stick=..., airdodge_frames=j)` — but `WavedashData` has an explicit
`__init__` (stat_types.py lines 60-67) with no `r_frame` parameter
(`@dataclass` keeps a user-defined `__init__`), so the call raises
`TypeError`; neither the assignment to `self.wavedash_state` nor the
inner knee-bend scan is ever reached. -/
def wavedashTriggerScan (frames : List WFrame) (i : Nat)
    (st : Option WavedashData) :
    Nat → Nat → Except PyErr (Option WavedashData)
  | _, 0 => .ok st
  | j, n + 1 =>
    match pyGet frames ((i : Int) - (j : Int)) with
    | none => .error .indexError
    | some past =>
      if past.rHeld || past.lHeld then .error .typeError
      else wavedashTriggerScan frames i st (j + 1) n

/-- Loop body of `wavedash_compute` for frame `i`.  The state threaded
between iterations is `self.wavedash_state`; since the record
construction always raises `TypeError`, it can never become non-`None`,
so the `if self.wavedash_state is not None` append never fires. -/
def wavedashStep (frames : List WFrame) (i : Nat)
    (acc : Option WavedashData × List WavedashData) :
    Except PyErr (Option WavedashData × List WavedashData) :=
  let (st, out) := acc
  match frames.get? i, pyGet frames ((i : Int) - 1) with
  | some player_frame, some prev_player_frame =>
    if player_frame.state ≠ LAND_FALL_SPECIAL then .ok (st, out)
    else if prev_player_frame.state = LAND_FALL_SPECIAL then .ok (st, out)
    else
      match wavedashTriggerScan frames i st 0 5 with
      | .error e => .error e
      | .ok st' =>
        match st' with
        | none => .ok (none, out)
        | some wd => .ok (some wd, out ++ [wd])
  | _, _ => .error .indexError

/-- One `for`-iteration of `wavedash_compute` on the running
accumulator: a previously raised exception propagates. -/
def wavedashAcc (frames : List WFrame)
    (acc : Except PyErr (Option WavedashData × List WavedashData)) (i : Nat) :
    Except PyErr (Option WavedashData × List WavedashData) :=
  match acc with
  | .error e => .error e
  | .ok s => wavedashStep frames i s

/-- Embedding of `StatsComputer.wavedash_compute`: returns
`player.stats.wavedashes`, or the Python exception that escapes. -/
def wavedash_compute (frames : List WFrame) :
    Except PyErr (List WavedashData) :=
  ((List.range frames.length).foldl (wavedashAcc frames)
    (.ok (none, []))).map Prod.snd

/-- Frame with no inputs, in the neutral `WAIT` action state. -/
def wIdle : WFrame :=
  { state := WAIT, lHeld := false, rHeld := false, stocks := 4, joystick := (0, 0) }

/-- Failing input for claim C9: a rising edge into special landing lag
at frame 3 whose 5-frame lookback window contains a held shield trigger
(frame 2). -/
def exC9 : List WFrame :=
  [ wIdle,
    { wIdle with state := KNEE_BEND },
    { wIdle with state := FALL_SPECIAL_START, lHeld := true },
    { wIdle with state := LAND_FALL_SPECIAL },
    wIdle, wIdle, wIdle, wIdle,
    { wIdle with state := LAND_FALL_SPECIAL },
    wIdle, wIdle, wIdle ]

theorem wavedashTriggerScan_ok (frames : List WFrame) (i : Nat)
    (st : Option WavedashData) :
    ∀ (n j : Nat) (st' : Option WavedashData),
      wavedashTriggerScan frames i st j n = .ok st' → st' = st
  | 0, j, st', h => by
    rw [wavedashTriggerScan] at h
    injection h with h2
    exact h2.symm
  | n + 1, j, st', h => by
    rw [wavedashTriggerScan] at h
    split at h
    · exact Except.noConfusion h
    · split at h
      · exact Except.noConfusion h
      · exact wavedashTriggerScan_ok frames i st n (j + 1) st' h

theorem wavedashStep_none (frames : List WFrame) (i : Nat)
    (out : List WavedashData) (r : Option WavedashData × List WavedashData)
    (h : wavedashStep frames i (none, out) = .ok r) : r = (none, out) := by
  unfold wavedashStep at h
  dsimp only at h
  split at h
  · split at h
    · injection h with h2
      exact h2.symm
    · split at h
      · injection h with h2
        exact h2.symm
      · split at h
        · exact Except.noConfusion h
        · rename_i st' hscan
          have hst := wavedashTriggerScan_ok frames i none 5 0 st' hscan
          subst hst
          dsimp only at h
          injection h with h2
          exact h2.symm
  · exact Except.noConfusion h

theorem wavedashFold_error (frames : List WFrame) :
    ∀ (l : List Nat) (e : PyErr),
      l.foldl (wavedashAcc frames) (.error e) = .error e
  | [], _ => rfl
  | _ :: rest, e => by
    rw [List.foldl_cons]
    exact wavedashFold_error frames rest e

theorem wavedashFold_none (frames : List WFrame) :
    ∀ (l : List Nat) (out : List WavedashData)
      (r : Option WavedashData × List WavedashData),
      l.foldl (wavedashAcc frames) (.ok (none, out)) = .ok r → r = (none, out)
  | [], out, r, h => by
    injection h with h2
    exact h2.symm
  | i :: rest, out, r, h => by
    rw [List.foldl_cons] at h
    cases hs : wavedashStep frames i (none, out) with
    | error e =>
      have hacc : wavedashAcc frames (.ok (none, out)) i = .error e := by
        unfold wavedashAcc
        exact hs
      rw [hacc, wavedashFold_error frames rest e] at h
      exact Except.noConfusion h
    | ok s =>
      have hsv : s = (none, out) := wavedashStep_none frames i out s hs
      have hacc : wavedashAcc frames (.ok (none, out)) i = .ok (none, out) := by
        unfold wavedashAcc
        dsimp only
        rw [hs, hsv]
      rw [hacc] at h
      exact wavedashFold_none frames rest out r h

/-- Claim C9 (code bug).  The claim says each landing appends at most
one wavedash record and a record appended for one landing is never
re-appended for a later one.  The code cannot append ANY record: every
qualifying landing reaches the `WavedashData(..., r_frame=0, ...)` call
(stats_computer.py lines 138-144), which raises `TypeError` because the
class's explicit `__init__` (stat_types.py lines 60-67) has no
`r_frame` parameter.  On `exC9` (landing at frame 3, trigger held at
frame 2) the classifier raises `TypeError` (first conjunct), and every
run that completes returns an empty record list (second conjunct). -/
theorem claim_C9_wavedash_append_type_error :
    wavedash_compute exC9 = .error .typeError ∧
    ∀ (frames : List WFrame) (recs : List WavedashData),
      wavedash_compute frames = .ok recs → recs = [] := by
  refine ⟨by rfl, ?_⟩
  intro frames recs h
  unfold wavedash_compute at h
  cases hf : (List.range frames.length).foldl (wavedashAcc frames)
      (.ok (none, [])) with
  | error e =>
    rw [hf] at h
    exact Except.noConfusion h
  | ok p =>
    rw [hf] at h
    have hp : p = (none, []) :=
      wavedashFold_none frames (List.range frames.length) [] p hf
    subst hp
    simp only [Except.map] at h
    injection h with h2
    exact h2.symm

theorem claim_C9_witness :
    wavedash_compute [wIdle, wIdle, wIdle] = .ok [] ∧
    ([] : List WavedashData) = [] :=
  ⟨by rfl, claim_C9_wavedash_append_type_error.2 [wIdle, wIdle, wIdle] []
    (by rfl)⟩

/-! ## Dash / dashdance classifier

Embedding of `StatsComputer.dash_compute` from
`src/slippistats/stats/stats_computer.py` (lines 157-200). -/

structure DFrame where
  state : Int
  facing : Int
  xpos : Rat
  stocks : Nat
deriving Repr, DecidableEq, Inhabited

/-- Embedding of `DashData` (`stat_types.py` lines 104-131); `direction`
is stored in the source as the `Direction` enum member's name, kept here
as its integer value. -/
structure DashData where
  frame_index : Nat
  stocks_remaining : Nat
  direction : Int
  start_pos : Rat
  end_pos : Rat
  is_dashdance : Bool
deriving Repr, DecidableEq, Inhabited

/-- Modelled from the spec: `just_entered_state` (absent
`stats/common.py`) — rising edge into action state `s`. -/
def just_entered_state (s cur prev : Int) : Bool :=
  cur == s && prev != s

/-- Modelled from the spec: `just_exited_state` (absent
`stats/common.py`) — falling edge out of action state `s`. -/
def just_exited_state (s cur prev : Int) : Bool :=
  cur != s && prev == s

structure DState where
  dash_state : Option DashData
  dashes : List DashData
deriving Repr, DecidableEq, Inhabited

/-- Loop body of `dash_compute` for frame `i`.  On a rising edge into
`DASH` it opens a record; if the one-prior/two-prior states are
`TURN`/`DASH` it marks both the new record and `player.stats.dashes[-1]`
(IndexError when that list is empty) as a dashdance.  On a falling edge it
finalizes `self.dash_state` (AttributeError when that is `None`, since the
source assigns `self.dash_state.end_pos` before the `None` reset). -/
def dashStep (frames : List DFrame) (i : Nat) (st : DState) :
    Except PyErr DState :=
  match frames.get? i, pyGet frames ((i : Int) - 1), pyGet frames ((i : Int) - 2) with
  | some player_frame, some prev_player_frame, some prev_prev_player_frame =>
    let player_state := player_frame.state
    let prev_player_state := prev_player_frame.state
    let prev_prev_player_state := prev_prev_player_frame.state
    let afterEnter : Except PyErr DState :=
      if just_entered_state DASH player_state prev_player_state then
        let d0 : DashData :=
          { frame_index := i, stocks_remaining := player_frame.stocks,
            direction := player_frame.facing, start_pos := player_frame.xpos,
            end_pos := 0, is_dashdance := false }
        if prev_player_state = TURN ∧ prev_prev_player_state = DASH then
          match st.dashes.getLast? with
          | none => .error .indexError
          | some lastDash =>
            .ok { dash_state := some { d0 with is_dashdance := true },
                  dashes := st.dashes.dropLast ++ [{ lastDash with is_dashdance := true }] }
        else .ok { st with dash_state := some d0 }
      else .ok st
    match afterEnter with
    | .error e => .error e
    | .ok st1 =>
      if just_exited_state DASH player_state prev_player_state then
        match st1.dash_state with
        | none => .error .attributeError
        | some d =>
          .ok { dash_state := none,
                dashes := st1.dashes ++ [{ d with end_pos := player_frame.xpos }] }
      else .ok st1
  | _, _, _ => .error .indexError

/-- Runs the `dash_compute` loop over the first `k` frames. -/
def dashRun (frames : List DFrame) : Nat → Except PyErr DState
  | 0 => .ok { dash_state := none, dashes := [] }
  | k + 1 =>
    match dashRun frames k with
    | .error e => .error e
    | .ok st => dashStep frames k st

/-- Embedding of `StatsComputer.dash_compute`: returns
`player.stats.dashes`, or the Python exception that escapes. -/
def dash_compute (frames : List DFrame) : Except PyErr (List DashData) :=
  (dashRun frames frames.length).map DState.dashes

theorem get?_eq_some_getD [Inhabited α] (l : List α) (i : Nat) (h : i < l.length) :
    l.get? i = some (l.getD i default) := by
  rw [List.get?_eq_get h, List.getD_eq_get]

theorem pyGet_getD [Inhabited α] (l : List α) (i j : Nat) (hj : j ≤ i)
    (h : i - j < l.length) :
    pyGet l ((i : Int) - (j : Int)) = some (l.getD (i - j) default) := by
  have hz : (i : Int) - (j : Int) = ((i - j : Nat) : Int) := by omega
  rw [hz, pyGet_nonneg, get?_eq_some_getD _ _ h]

theorem pyGet_sub_one [Inhabited α] (l : List α) (i : Nat) (h1 : 1 ≤ i)
    (h : i - 1 < l.length) :
    pyGet l ((i : Int) - 1) = some (l.getD (i - 1) default) := by
  have := pyGet_getD l i 1 h1 h
  simpa using this

theorem pyGet_sub_two [Inhabited α] (l : List α) (i : Nat) (h2 : 2 ≤ i)
    (h : i - 2 < l.length) :
    pyGet l ((i : Int) - 2) = some (l.getD (i - 2) default) := by
  have := pyGet_getD l i 2 h2 h
  simpa using this

theorem pyGet_isSome (l : List α) (z : Int) (h1 : -(l.length : Int) ≤ z)
    (h2 : z < l.length) : ∃ x, pyGet l z = some x := by
  unfold pyGet
  by_cases h0 : 0 ≤ z
  · rw [if_pos h0]
    have : z.toNat < l.length := by omega
    exact ⟨l.get ⟨z.toNat, this⟩, List.get?_eq_get this⟩
  · rw [if_neg h0, if_pos (by omega)]
    have : l.length - z.natAbs < l.length := by omega
    exact ⟨l.get ⟨l.length - z.natAbs, this⟩, List.get?_eq_get this⟩

theorem dashRun_ok_succ {frames : List DFrame} {k : Nat} {fin : DState}
    (h : dashRun frames (k + 1) = .ok fin) :
    ∃ st, dashRun frames k = .ok st ∧ dashStep frames k st = .ok fin := by
  rw [dashRun] at h
  cases hrun : dashRun frames k with
  | error e => rw [hrun] at h; cases h
  | ok st => rw [hrun] at h; exact ⟨st, rfl, h⟩

theorem dashRun_ok_prefix {frames : List DFrame} {k : Nat} {fin : DState}
    (h : dashRun frames k = .ok fin) :
    ∀ j, j ≤ k → ∃ st, dashRun frames j = .ok st := by
  induction k generalizing fin with
  | zero =>
    intro j hj
    have hj0 : j = 0 := by omega
    subst hj0
    exact ⟨_, rfl⟩
  | succ k ih =>
    intro j hj
    obtain ⟨st, hst, _⟩ := dashRun_ok_succ h
    rcases Nat.lt_or_ge j (k + 1) with hlt | hge
    · exact ih hst j (by omega)
    · have hjk : j = k + 1 := by omega
      subst hjk
      exact ⟨fin, h⟩

theorem dashStep_noop (frames : List DFrame) (i : Nat) (st : DState)
    (hi : i < frames.length) (h1 : 1 ≤ i)
    (hcur : (frames.getD i default).state = DASH)
    (hprev : (frames.getD (i - 1) default).state = DASH) :
    dashStep frames i st = .ok st := by
  have hc := get?_eq_some_getD frames i hi
  have hp := pyGet_sub_one frames i h1 (by omega)
  obtain ⟨pp, hpp⟩ := pyGet_isSome frames ((i : Int) - 2) (by omega) (by omega)
  simp only [dashStep, hc, hp, hpp, just_entered_state, just_exited_state,
    hcur, hprev]
  simp

theorem dashStep_exit (frames : List DFrame) (i : Nat) (st : DState)
    (d : DashData) (hi : i < frames.length) (h1 : 1 ≤ i)
    (hcur : (frames.getD i default).state ≠ DASH)
    (hprev : (frames.getD (i - 1) default).state = DASH)
    (hd : st.dash_state = some d) :
    dashStep frames i st =
      .ok { dash_state := none,
            dashes := st.dashes ++ [{ d with end_pos := (frames.getD i default).xpos }] } := by
  have hc := get?_eq_some_getD frames i hi
  have hp := pyGet_sub_one frames i h1 (by omega)
  obtain ⟨pp, hpp⟩ := pyGet_isSome frames ((i : Int) - 2) (by omega) (by omega)
  simp only [dashStep, hc, hp, hpp, just_entered_state, just_exited_state, hprev]
  simp [hd]
  intro hfalse
  exact absurd hfalse (by simpa using hcur)

theorem dashStep_dashdance (frames : List DFrame) (i : Nat) (st : DState)
    (lastD : DashData) (hi : i < frames.length) (h2 : 2 ≤ i)
    (hcur : (frames.getD i default).state = DASH)
    (hprev : (frames.getD (i - 1) default).state = TURN)
    (hpp : (frames.getD (i - 2) default).state = DASH)
    (hlast : st.dashes.getLast? = some lastD) :
    dashStep frames i st =
      .ok { dash_state := some
              { frame_index := i,
                stocks_remaining := (frames.getD i default).stocks,
                direction := (frames.getD i default).facing,
                start_pos := (frames.getD i default).xpos,
                end_pos := 0, is_dashdance := true },
            dashes := st.dashes.dropLast ++ [{ lastD with is_dashdance := true }] } := by
  have hc := get?_eq_some_getD frames i hi
  have hp := pyGet_sub_one frames i (by omega) (by omega)
  have hp2 := pyGet_sub_two frames i h2 (by omega)
  simp only [dashStep, hc, hp, hp2, just_entered_state, just_exited_state,
    hcur, hprev, hpp, hlast]
  simp [TURN, DASH]

/-- Claim C6.  For every player frame sequence containing the action-state
pattern dash (entered at frame `a`), then turn, then dash (entered at
frame `b`) — i.e. states `a .. b-2` are `DASH` with a rising edge at `a`,
state `b-1` is `TURN` and state `b` is `DASH` — `dash_compute` marks both
the record opened at frame `a` and the record opened at frame `b` as a
dashdance: after processing frame `b`, the open record (`self.dash_state`)
has `frame_index = b` and `is_dashdance = true`, and the most recently
closed record (`player.stats.dashes[-1]`) has `frame_index = a` and
`is_dashdance = true`. -/
theorem claim_C6_dash_turn_dash_marks_both
    (frames : List DFrame) (a b : Nat) (fin : DState)
    (hb : b < frames.length)
    (hab : a + 2 ≤ b)
    (hseg : ∀ k, a ≤ k → k + 2 ≤ b → (frames.getD k default).state = DASH)
    (hturn : (frames.getD (b - 1) default).state = TURN)
    (hdashb : (frames.getD b default).state = DASH)
    (hrise : ∀ pf, pyGet frames ((a : Int) - 1) = some pf → pf.state ≠ DASH)
    (hok : dashRun frames (b + 1) = .ok fin) :
    (∃ d, fin.dash_state = some d ∧ d.frame_index = b ∧ d.is_dashdance = true) ∧
    (∃ d, fin.dashes.getLast? = some d ∧ d.frame_index = a ∧ d.is_dashdance = true) := by
  obtain ⟨stB, hrunB, hstepB⟩ := dashRun_ok_succ hok
  have hb1succ : b - 1 + 1 = b := by omega
  obtain ⟨stB1, hrunB1, hstepB1⟩ :=
    dashRun_ok_succ (show dashRun frames (b - 1 + 1) = .ok stB by rw [hb1succ]; exact hrunB)
  obtain ⟨stA1, hrunA1⟩ := dashRun_ok_prefix hrunB1 (a + 1) (by omega)
  obtain ⟨stA, hrunA, hstepA⟩ := dashRun_ok_succ hrunA1
  -- analyze the step at frame a: it opens a record with frame_index = a
  have hstateA : (frames.getD a default).state = DASH := hseg a le_rfl hab
  have hcA := get?_eq_some_getD frames a (by omega)
  obtain ⟨prevA, hprevA⟩ := pyGet_isSome frames ((a : Int) - 1) (by omega) (by omega)
  obtain ⟨ppA, hppA⟩ := pyGet_isSome frames ((a : Int) - 2) (by omega) (by omega)
  have hprANe : prevA.state ≠ DASH := hrise prevA hprevA
  have hA1 : ∃ da, stA1.dash_state = some da ∧ da.frame_index = a := by
    simp only [dashStep, hcA, hprevA, hppA, just_entered_state, just_exited_state,
      hstateA] at hstepA
    rw [show (prevA.state != DASH) = true by simpa using hprANe] at hstepA
    rw [show (DASH == DASH) = true by simp] at hstepA
    simp only [Bool.and_self, Bool.true_and, if_true] at hstepA
    by_cases hmark : prevA.state = TURN ∧ ppA.state = DASH
    · rw [if_pos hmark] at hstepA
      cases hlastA : stA.dashes.getLast? with
      | none => rw [hlastA] at hstepA; simp at hstepA
      | some lastA =>
        rw [hlastA] at hstepA
        rw [show ((DASH != DASH) = false) by simp] at hstepA
        simp at hstepA
        subst hstepA
        exact ⟨_, rfl, rfl⟩
    · rw [if_neg hmark] at hstepA
      rw [show ((DASH != DASH) = false) by simp] at hstepA
      simp at hstepA
      subst hstepA
      exact ⟨_, rfl, rfl⟩
  obtain ⟨da, hdA, hfiA⟩ := hA1
  -- the state is unchanged from a+1 through b-1
  have hconst : ∀ k, a + 1 ≤ k → k ≤ b - 1 → dashRun frames k = .ok stA1 := by
    intro k hk1 hk2
    induction k with
    | zero => omega
    | succ n ih =>
      rcases Nat.lt_or_ge (a + 1) (n + 1) with hlt | hge
      · have hn1 : a + 1 ≤ n := by omega
        have hn2 : n ≤ b - 1 := by omega
        have hrn := ih hn1 hn2
        rw [dashRun, hrn]
        exact dashStep_noop frames n stA1 (by omega) (by omega)
          (hseg n (by omega) (by omega)) (hseg (n - 1) (by omega) (by omega))
      · have : n + 1 = a + 1 := by omega
        rw [this]
        exact hrunA1
  -- step b-1 closes the record opened at a
  have hB1eq : stB1 = stA1 := by
    have := hconst (b - 1) (by omega) le_rfl
    rw [this] at hrunB1
    exact (Except.ok.inj hrunB1).symm
  subst hB1eq
  have hstateB1 : (frames.getD (b - 1) default).state ≠ DASH := by
    rw [hturn]; decide
  have hprevB1 : (frames.getD (b - 1 - 1) default).state = DASH := by
    have : b - 1 - 1 = b - 2 := by omega
    rw [this]
    exact hseg (b - 2) (by omega) (by omega)
  have hstepB1' := dashStep_exit frames (b - 1) stB1 da (by omega) (by omega)
    hstateB1 hprevB1 hdA
  rw [hstepB1'] at hstepB1
  have hBdef := Except.ok.inj hstepB1
  -- step b opens the new record and marks both as dashdance
  have hprevB : (frames.getD (b - 1) default).state = TURN := hturn
  have hppB : (frames.getD (b - 2) default).state = DASH :=
    hseg (b - 2) (by omega) (by omega)
  have hlastB : stB.dashes.getLast? =
      some { da with end_pos := (frames.getD (b - 1) default).xpos } := by
    rw [← hBdef]
    exact List.getLast?_concat _
  have hstepB' := dashStep_dashdance frames b stB
    { da with end_pos := (frames.getD (b - 1) default).xpos }
    hb (by omega) hdashb hprevB hppB hlastB
  rw [hstepB'] at hstepB
  have hfin := Except.ok.inj hstepB
  subst hfin
  constructor
  · exact ⟨_, rfl, rfl, rfl⟩
  · refine ⟨{ { da with end_pos := (frames.getD (b - 1) default).xpos }
        with is_dashdance := true }, ?_, ?_, rfl⟩
    · exact List.getLast?_concat _
    · simpa using hfiA

/-- Neutral frame for the dash scenario. -/
def dIdle : DFrame := { state := WAIT, facing := 1, xpos := 0, stocks := 4 }

/-- Spec scenario for claim C6: states `{dash@5, turn@9, dash@10}` —
dash from frame 5 through 8, turn on frame 9, dash again from frame 10. -/
def exC6 : List DFrame :=
  [ dIdle, dIdle, dIdle, dIdle, dIdle,
    { dIdle with state := DASH }, { dIdle with state := DASH },
    { dIdle with state := DASH }, { dIdle with state := DASH },
    { dIdle with state := TURN },
    { dIdle with state := DASH }, { dIdle with state := DASH },
    dIdle ]

/-- The classifier state after `dash_compute` has processed frames 0-10 of
`exC6`: the frame-5 record is closed and marked, the frame-10 record is
open and marked. -/
def exC6state : DState :=
  { dash_state := some
      { frame_index := 10, stocks_remaining := 4, direction := 1,
        start_pos := 0, end_pos := 0, is_dashdance := true },
    dashes :=
      [ { frame_index := 5, stocks_remaining := 4, direction := 1,
          start_pos := 0, end_pos := 0, is_dashdance := true } ] }

theorem claim_C6_witness :
    dashRun exC6 11 = .ok exC6state ∧
    ((∃ d, exC6state.dash_state = some d ∧ d.frame_index = 10 ∧ d.is_dashdance = true) ∧
     (∃ d, exC6state.dashes.getLast? = some d ∧ d.frame_index = 5 ∧ d.is_dashdance = true)) :=
  ⟨rfl,
   claim_C6_dash_turn_dash_marks_both exC6 5 10 exC6state (by decide) (by omega)
     (by intro k h1 h2
         have h3 : k ≤ 8 := by omega
         interval_cases k <;> rfl)
     rfl rfl
     (by intro pf h
         have h0 : ((5 : Nat) : Int) - 1 = ((4 : Nat) : Int) := by norm_num
         rw [h0, pyGet_nonneg] at h
         rw [show exC6.get? 4 = some dIdle from rfl] at h
         injection h with h2
         rw [← h2]
         decide)
     rfl⟩

/-! ## L-cancel classifier

Embedding of `StatsComputer.l_cancel_compute` from
`src/slippistats/stats/stats_computer.py` (lines 428-500). -/

structure LFrame where
  state : Int
  l_cancel : Nat
  lrz : Bool
  hitlag : Bool
  fastfall : Bool
  ground_id : Nat
deriving Repr, DecidableEq, Inhabited

/-- Modelled from the spec: `just_input_l_cancel` (absent
`stats/common.py`) — an edge-triggered shield/Z input: one of the physical
L/R/Z buttons is pressed on this frame and was not pressed on the
previous frame.  `lrz` is that per-frame pressed flag. -/
def just_input_l_cancel (cur prev : LFrame) : Bool :=
  cur.lrz && !prev.lrz

/-- Embedding of `LCancelData` (`stat_types.py` lines 289-320), with
the dataclass's own fields: `stocks_remaining` is a required parameter
of the generated `__init__`, and the fast-fall field is spelled
`fastfall`.  `position` is `get_ground(stage, last_ground_id)` in the
source; the ground enum module is not among the sources, so the raw
ground id is kept. -/
structure LCancelData where
  frame_index : Nat
  stocks_remaining : Nat
  l_cancel : Bool
  move : Int
  position : Nat
  trigger_input_frame : Option Int
  during_hitlag : Bool
  fastfall : Bool
deriving Repr, DecidableEq, Inhabited

/-- Value of the Python local `trigger_input_frame`: unbound before the
first assignment (referencing it raises `UnboundLocalError`), `None`, or
an int. -/
inductive TifVal where
  | unbound
  | pynone
  | val (z : Int)
deriving Repr, DecidableEq

structure LState where
  tif : TifVal
  during_hitlag : Bool
  out : List LCancelData
deriving Repr, DecidableEq

/-- The late-press scan of `l_cancel_compute` (lines 483-485):
`for j in range(1, 6)` reads `player.frames[i + j]` (IndexError past the
end of the list) and assigns `trigger_input_frame = j` on every hit — the
loop has no `break`, so it always runs all five iterations and the last
hit wins. -/
def lateScanGo (frames : List LFrame) (i : Nat) (t : Int) :
    List Nat → Except PyErr Int
  | [] => .ok t
  | j :: rest =>
    match frames.get? (i + j), frames.get? (i + j - 1) with
    | some f2, some f1 =>
      lateScanGo frames i (if just_input_l_cancel f2 f1 then (j : Int) else t) rest
    | _, _ => .error .indexError

def lCancelLateScan (frames : List LFrame) (i : Nat) (t : Int) :
    Except PyErr Int :=
  lateScanGo frames i t [1, 2, 3, 4, 5]

/-- Loop body of `l_cancel_compute` for frame `i`.  Mirrors the source
exactly: on an edge-triggered press, record its absolute frame index and
whether it happened in hitlag; skip frames whose l-cancel status is
`NOT_APPLICABLE`; otherwise re-assign
`trigger_input_frame := trigger_input_frame - i` (the walrus at line 476 —
note the value persists into later iterations), null it when it is `> 15`
and not in hitlag and `< 25`, run the late scan when the landing was not
a success, and then reach the
`player.stats.l_cancels.append(LCancelData(...))` call (lines 487-497).
That call raises `TypeError`: it passes the keyword `fast_fall=` while
the dataclass field is `fastfall`, and omits the required
`stocks_remaining` argument — so no l-cancel record is ever
constructed. -/
def lCancelStep (frames : List LFrame) (i : Nat) (st : LState) :
    Except PyErr LState :=
  match frames.get? i, pyGet frames ((i : Int) - 1) with
  | some cur, some prev =>
    let tif0 : TifVal :=
      if just_input_l_cancel cur prev then .val (i : Int) else st.tif
    let dh0 : Bool :=
      if just_input_l_cancel cur prev then cur.hitlag else st.during_hitlag
    if cur.l_cancel = LCANCEL_NOT_APPLICABLE then
      .ok { st with tif := tif0, during_hitlag := dh0 }
    else
      match tif0 with
      | .unbound => .error .unboundLocal
      | .pynone => .error .noneArith
      | .val v =>
        let t := v - (i : Int)
        let tif1 : TifVal :=
          if t > 15 ∧ ¬dh0 ∧ t < 25 then .pynone else .val t
        let did : Bool := cur.l_cancel = LCANCEL_SUCCESS
        let scanned : Except PyErr TifVal :=
          if did then .ok tif1
          else
            match tif1 with
            | .pynone => .ok .pynone
            | .val t1 => (lCancelLateScan frames i t1).map .val
            | .unbound => .ok .unbound
        match scanned with
        | .error e => .error e
        | .ok _ => .error .typeError
  | _, _ => .error .indexError

def lCancelRun (frames : List LFrame) : Nat → Except PyErr LState
  | 0 => .ok { tif := .unbound, during_hitlag := false, out := [] }
  | k + 1 =>
    match lCancelRun frames k with
    | .error e => .error e
    | .ok st => lCancelStep frames k st

/-- Embedding of `StatsComputer.l_cancel_compute`: returns
`player.stats.l_cancels.data`, or the Python exception that escapes. -/
def l_cancel_compute (frames : List LFrame) : Except PyErr (List LCancelData) :=
  (lCancelRun frames frames.length).map LState.out

theorem lCancelRun_ok_succ {frames : List LFrame} {k : Nat} {fin : LState}
    (h : lCancelRun frames (k + 1) = .ok fin) :
    ∃ st, lCancelRun frames k = .ok st ∧ lCancelStep frames k st = .ok fin := by
  rw [lCancelRun] at h
  cases hrun : lCancelRun frames k with
  | error e => rw [hrun] at h; cases h
  | ok st => rw [hrun] at h; exact ⟨st, rfl, h⟩

theorem lateScanGo_bound (frames : List LFrame) (i : Nat) :
    ∀ (l : List Nat) (t r : Int), (∀ j ∈ l, (j : Int) ≤ 5) →
      lateScanGo frames i t l = .ok r → r = t ∨ r ≤ 5 := by
  intro l
  induction l with
  | nil =>
    intro t r _ h
    rw [lateScanGo] at h
    exact Or.inl (Except.ok.inj h).symm
  | cons j rest ih =>
    intro t r hj h
    rw [lateScanGo] at h
    cases h2 : frames.get? (i + j) with
    | none => rw [h2] at h; cases h
    | some f2 =>
      cases h1 : frames.get? (i + j - 1) with
      | none => rw [h2, h1] at h; cases h
      | some f1 =>
        rw [h2, h1] at h
        rcases ih _ r (fun j0 hj0 => hj j0 (List.mem_cons_of_mem _ hj0)) h with heq | hle
        · by_cases hin : just_input_l_cancel f2 f1 = true
          · rw [hin] at heq
            simp at heq
            exact Or.inr (heq ▸ hj j (List.mem_cons_self _ _))
          · rw [Bool.not_eq_true] at hin
            rw [hin] at heq
            simp at heq
            exact Or.inl heq
        · exact Or.inr hle

theorem lCancelLateScan_bound (frames : List LFrame) (i : Nat) (t r : Int)
    (ht : t ≤ 5) (h : lCancelLateScan frames i t = .ok r) : r ≤ 5 := by
  rcases lateScanGo_bound frames i [1, 2, 3, 4, 5] t r (by decide) h with heq | hle
  · omega
  · exact hle

/-- Neutral l-cancel frame: no input, no landing, no hitlag. -/
def lIdle : LFrame :=
  { state := WAIT, l_cancel := 0, lrz := false, hitlag := false,
    fastfall := false, ground_id := 0 }

/-- Failing input for claim C1: an edge-triggered L/R/Z press on
frame 2 and a successful l-cancel landing on frame 20, which reaches
the record append. -/
def exC1 : List LFrame :=
  [ lIdle, lIdle, { lIdle with lrz := true } ] ++
  List.replicate 17 lIdle ++
  [ { lIdle with l_cancel := 1 } ]

theorem lCancelStep_out (frames : List LFrame) (i : Nat) (st fin : LState)
    (h : lCancelStep frames i st = .ok fin) : fin.out = st.out := by
  unfold lCancelStep at h
  dsimp only at h
  split at h
  · split at h
    · injection h with h2
      subst h2
      rfl
    · split at h
      · exact Except.noConfusion h
      · exact Except.noConfusion h
      · split at h
        · exact Except.noConfusion h
        · exact Except.noConfusion h
  · exact Except.noConfusion h

theorem lCancelRun_out (frames : List LFrame) :
    ∀ (k : Nat) (st : LState), lCancelRun frames k = .ok st → st.out = []
  | 0, st, h => by
    rw [lCancelRun] at h
    injection h with h2
    subst h2
    rfl
  | k + 1, st, h => by
    obtain ⟨st0, hrun0, hstep0⟩ := lCancelRun_ok_succ h
    rw [lCancelStep_out frames k st0 st hstep0]
    exact lCancelRun_out frames k st0 hrun0

/-- Claim C1 (code bug).  The claim bounds the `trigger_input_frame` of
records emitted by `l_cancel_compute`; the code cannot emit any record:
every frame with an applicable l-cancel status reaches
`player.stats.l_cancels.append(LCancelData(...))` (stats_computer.py
lines 487-497), and that call raises `TypeError` — it passes the
keyword `fast_fall=` while the dataclass field is `fastfall`, and omits
the required `stocks_remaining` argument.  On `exC1` (press on frame 2,
successful l-cancel landing on frame 20) the classifier raises
`TypeError` at the first landing (first conjunct), and every run that
completes returns an empty record list (second conjunct), so the
claimed invariant over emitted records is vacuous. -/
theorem claim_C1_lcancel_append_type_error :
    l_cancel_compute exC1 = .error .typeError ∧
    ∀ (frames : List LFrame) (recs : List LCancelData),
      l_cancel_compute frames = .ok recs → recs = [] := by
  refine ⟨by rfl, ?_⟩
  intro frames recs h
  unfold l_cancel_compute at h
  cases hr : lCancelRun frames frames.length with
  | error e =>
    rw [hr] at h
    exact Except.noConfusion h
  | ok st =>
    rw [hr] at h
    simp only [Except.map] at h
    injection h with h2
    rw [← h2]
    exact lCancelRun_out frames frames.length st hr

theorem claim_C1_witness :
    l_cancel_compute [lIdle, lIdle, lIdle] = .ok [] ∧
    ([] : List LCancelData) = [] :=
  ⟨by rfl, claim_C1_lcancel_append_type_error.2 [lIdle, lIdle, lIdle] []
    (by rfl)⟩

/-- Failing input for claim C2: an edge-triggered press on frame 0 and a
FAILED l-cancel landing on frame 2, the last frame of the game. -/
def exC2 : List LFrame :=
  [ { lIdle with lrz := true }, lIdle, { lIdle with l_cancel := 2 } ]

/-- Claim C2 (refutation).  The claim says every classifier runs to
completion on well-formed input, the only error being the explicit
argument error.  But `l_cancel_compute`'s late-press scan
(`player.frames[i + j]`, stats_computer.py line 484) runs past the end of
the frame list whenever a failed l-cancel lands within 5 frames of the
end of the game — a perfectly ordinary replay — raising `IndexError`
(and a landing that precedes every shield press raises
`UnboundLocalError` at line 476).  On the 3-frame input `exC2` the
classifier raises `IndexError`. -/
theorem claim_C2_lcancel_index_error :
    l_cancel_compute exC2 = .error .indexError := by rfl

/-! ## Take-hit / DI classifier

Embedding of `StatsComputer.take_hit_compute` from
`src/slippistats/stats/stats_computer.py` (lines 303-426), specialized to
replay version ≥ 2.0.0 (the early-return path merely warns and returns the
empty stats).  `knockback_check` (version ≥ 3.5.0) is kept as a
parameter.  The three numeric helpers the close-out step calls —
`get_post_di_angle`, `get_post_di_velocity` and `get_angle` (in degrees)
— live in the absent `stats/common.py` and are transcendental float
functions, so the embedding is parameterized by them. -/

structure THPost where
  state : Int
  percent : Rat
  position : Rat × Rat
  is_airborne : Bool
  knockback_speed : Rat × Rat
  most_recent_hit : Int
  hitlag : Bool
deriving Repr, DecidableEq, Inhabited

structure THPre where
  joystick : Rat × Rat
  cstick : Rat × Rat
deriving Repr, DecidableEq, Inhabited

structure THFrame where
  pre : THPre
  post : THPost
deriving Repr, DecidableEq, Inhabited

/-- Modelled from the spec: `is_shielding` (absent `stats/common.py`) —
action state within the guard range of `enums/state.py`. -/
def is_shielding (s : Int) : Bool :=
  GUARD_START ≤ s && s ≤ GUARD_END

/-- Modelled from the spec: `just_took_damage` (absent `stats/common.py`)
— the damage percent increased since the previous frame. -/
def just_took_damage (cur prev : Rat) : Bool :=
  cur > prev

/-- Modelled from the spec: the fixed-magnitude deflection formula
(`get_post_di_angle`), the post-DI velocity reconstruction
(`get_post_di_velocity`) and the degrees-valued `get_angle`, all in the
absent `stats/common.py`.  They are transcendental functions of their
arguments (atan2/sin/cos), so the embedding treats them as parameters;
no claim depends on their values. -/
structure TakeHitParams where
  get_post_di_angle : (Rat × Rat) → (Rat × Rat) → Rat
  get_post_di_velocity : Rat → (Rat × Rat) → (Rat × Rat)
  get_angle_degrees : (Rat × Rat) → Rat

/-- Embedding of `TakeHitData` (`stat_types.py` lines 195-283).  Fields
that the Python constructor initializes to `None` and that are only
populated when the hitlag window closes are `Option`s. -/
structure TakeHitData where
  frame_index : Nat
  last_hit_by : Int
  state_before_hit : Int
  grounded : Bool
  crouch_cancel : Bool
  hitlag_frames : Nat
  stick_regions_during_hitlag : List Int
  sdi_inputs : List Int
  asdi : Option Int
  di_stick_pos : Option (Rat × Rat)
  percent : Rat
  kb_velocity : Option (Rat × Rat)
  kb_angle : Option Rat
  final_kb_velocity : Option (Rat × Rat)
  final_kb_angle : Option Rat
  start_pos : Rat × Rat
  end_pos : Option (Rat × Rat)
  di_efficacy : Option Rat
deriving Repr, DecidableEq, Inhabited

/-- The effective-stick computation at window close (stats_computer.py
lines 348-365): zero the axis orthogonal to the last cardinal region,
zero both axes in the dead zone, leave diagonals untouched. -/
def effectiveStick (j : Rat × Rat) : Rat × Rat :=
  let r := get_joystick_region j
  if r = REGION_UP then (0, j.2)
  else if r = REGION_DOWN then (0, j.2)
  else if r = REGION_LEFT then (j.1, 0)
  else if r = REGION_RIGHT then (j.1, 0)
  else if r = DEAD_ZONE then (0, 0)
  else j

/-- Python float `%` (used to truncate `di_efficacy` to 2 decimals):
`x % y = x - y * floor(x / y)`. -/
def pymod (x y : Rat) : Rat := x - y * (Int.floor (x / y) : Int)

/-- The close-out of a take-hit window (stats_computer.py lines 345-396,
minus the final append): set `end_pos` and the effective stick, run the
knockback/DI block when `knockback_check` holds, resolve ASDI, and
extract the SDI inputs. -/
def takeHitClose (P : TakeHitParams) (kbCheck : Bool)
    (player_frame prev_player_frame : THFrame) (ths : TakeHitData) :
    Except PyErr TakeHitData :=
  let eff := effectiveStick player_frame.pre.joystick
  let ths1 := { ths with
    end_pos := some prev_player_frame.post.position,
    di_stick_pos := some eff }
  let kbStage : Except PyErr TakeHitData :=
    if kbCheck then
      match ths1.kb_velocity with
      | none => .error .attributeError
      | some kv =>
        if kv.1 ≠ 0 ∧ kv.2 ≠ 0 then
          match ths1.kb_angle with
          | none => .error .noneArith
          | some ka =>
            let fa := P.get_post_di_angle eff kv
            let e := (abs (fa - ka)) / 18 * 100
            .ok { ths1 with
              final_kb_angle := some fa,
              di_efficacy := some (e - pymod e (1 / 100)),
              final_kb_velocity := some (P.get_post_di_velocity fa kv) }
        else
          match ths1.kb_angle with
          | none => .error .noneArith
          | some ka =>
            .ok { ths1 with
              final_kb_angle := some ka,
              final_kb_velocity := some (P.get_post_di_velocity ka kv) }
    else .ok ths1
  match kbStage with
  | .error e => .error e
  | .ok ths2 =>
    let cs := get_joystick_region player_frame.pre.cstick
    let asdi := if cs ≠ DEAD_ZONE then cs
      else get_joystick_region player_frame.pre.joystick
    .ok { ths2 with
      asdi := some asdi,
      sdi_inputs := find_valid_sdi ths2.stick_regions_during_hitlag }

/-- A freshly opened take-hit window (stats_computer.py lines 399-417). -/
def takeHitOpen (P : TakeHitParams) (kbCheck : Bool) (i : Nat)
    (player_frame prev_player_frame opponent_frame : THFrame) : TakeHitData :=
  { frame_index := i,
    last_hit_by := opponent_frame.post.most_recent_hit,
    state_before_hit := prev_player_frame.post.state,
    grounded := !player_frame.post.is_airborne,
    crouch_cancel :=
      SQUAT_START ≤ prev_player_frame.post.state ∧
        prev_player_frame.post.state < SQUAT_END,
    hitlag_frames := 0,
    stick_regions_during_hitlag := [],
    sdi_inputs := [],
    asdi := none,
    di_stick_pos := none,
    percent := player_frame.post.percent,
    kb_velocity :=
      if kbCheck then some player_frame.post.knockback_speed else none,
    kb_angle :=
      if kbCheck then some (P.get_angle_degrees player_frame.post.knockback_speed)
      else none,
    final_kb_velocity := none,
    final_kb_angle := none,
    start_pos := player_frame.post.position,
    end_pos := none,
    di_efficacy := none }

/-- Loop body of `take_hit_compute` for frame `i` over aligned
(player, opponent) frame pairs. -/
def takeHitStep (P : TakeHitParams) (kbCheck : Bool)
    (frames : List (THFrame × THFrame)) (i : Nat)
    (st : Option TakeHitData × List TakeHitData) :
    Except PyErr (Option TakeHitData × List TakeHitData) :=
  match frames.get? i, pyGet frames ((i : Int) - 1) with
  | some fpair, some prevPair =>
    let player_frame := fpair.1
    let opponent_frame := fpair.2
    let prev_player_frame := prevPair.1
    let in_hitlag := player_frame.post.hitlag &&
      !(is_shielding prev_player_frame.post.state)
    let was_in_hitlag := prev_player_frame.post.hitlag &&
      !(is_shielding prev_player_frame.post.state)
    if !in_hitlag then
      match st.1 with
      | some ths =>
        if was_in_hitlag then
          match takeHitClose P kbCheck player_frame prev_player_frame ths with
          | .error e => .error e
          | .ok closed => .ok (none, st.2 ++ [closed])
        else .ok st
      | none => .ok st
    else
      let st1 : Option TakeHitData × List TakeHitData :=
        if !was_in_hitlag &&
            just_took_damage player_frame.post.percent prev_player_frame.post.percent then
          (some (takeHitOpen P kbCheck i player_frame prev_player_frame opponent_frame),
           st.2)
        else st
      match st1.1 with
      | some ths =>
        .ok (some { ths with
          stick_regions_during_hitlag :=
            ths.stick_regions_during_hitlag ++
              [get_joystick_region player_frame.pre.joystick],
          hitlag_frames := ths.hitlag_frames + 1 }, st1.2)
      | none => .ok st1
  | _, _ => .error .indexError

def takeHitRun (P : TakeHitParams) (kbCheck : Bool)
    (frames : List (THFrame × THFrame)) :
    Nat → Except PyErr (Option TakeHitData × List TakeHitData)
  | 0 => .ok (none, [])
  | k + 1 =>
    match takeHitRun P kbCheck frames k with
    | .error e => .error e
    | .ok st => takeHitStep P kbCheck frames k st

/-- Embedding of `StatsComputer.take_hit_compute`: returns
`player.stats.take_hits.data`, or the Python exception that escapes. -/
def take_hit_compute (P : TakeHitParams) (kbCheck : Bool)
    (frames : List (THFrame × THFrame)) : Except PyErr (List TakeHitData) :=
  (takeHitRun P kbCheck frames frames.length).map Prod.snd

theorem takeHitClose_spec (P : TakeHitParams)
    (pf ppf : THFrame) (ths r : TakeHitData)
    (h : takeHitClose P true pf ppf ths = .ok r) :
    r.kb_velocity = ths.kb_velocity ∧
    r.kb_angle = ths.kb_angle ∧
    r.di_stick_pos = some (effectiveStick pf.pre.joystick) ∧
    (∀ kv, ths.kb_velocity = some kv →
      ((kv.1 ≠ 0 ∧ kv.2 ≠ 0) →
        r.final_kb_angle = some (P.get_post_di_angle (effectiveStick pf.pre.joystick) kv)) ∧
      ((kv.1 = 0 ∨ kv.2 = 0) → r.final_kb_angle = ths.kb_angle)) := by
  unfold takeHitClose at h
  dsimp only at h
  cases hkv : ths.kb_velocity with
  | none => rw [hkv] at h; cases h
  | some kv =>
    rw [hkv] at h
    dsimp only at h
    by_cases hnz : kv.1 ≠ 0 ∧ kv.2 ≠ 0
    · rw [if_pos hnz] at h
      cases hka : ths.kb_angle with
      | none => rw [hka] at h; cases h
      | some ka =>
        rw [hka] at h
        dsimp only at h
        have hr := Except.ok.inj h
        subst hr
        refine ⟨by dsimp only, by dsimp only, by dsimp only, ?_⟩
        intro kv2 hkv2
        injection hkv2 with hkv3
        subst hkv3
        exact ⟨fun _ => by dsimp only, fun hz => absurd hz (by tauto)⟩
    · rw [if_neg hnz] at h
      cases hka : ths.kb_angle with
      | none => rw [hka] at h; cases h
      | some ka =>
        rw [hka] at h
        dsimp only at h
        have hr := Except.ok.inj h
        subst hr
        refine ⟨by dsimp only, by dsimp only, by dsimp only, ?_⟩
        intro kv2 hkv2
        injection hkv2 with hkv3
        subst hkv3
        exact ⟨fun hb => absurd hb hnz, fun _ => by dsimp only⟩

theorem takeHitStep_out (P : TakeHitParams) (kbCheck : Bool)
    (frames : List (THFrame × THFrame)) (i : Nat)
    (st st' : Option TakeHitData × List TakeHitData)
    (hstep : takeHitStep P kbCheck frames i st = .ok st') :
    st'.2 = st.2 ∨
    ∃ fpair prevPair ths closed,
      frames.get? i = some fpair ∧
      pyGet frames ((i : Int) - 1) = some prevPair ∧
      st.1 = some ths ∧
      takeHitClose P kbCheck fpair.1 prevPair.1 ths = .ok closed ∧
      st'.2 = st.2 ++ [closed] := by
  cases hget : frames.get? i with
  | none => simp [takeHitStep, ← List.get?_eq_getElem?, hget] at hstep
  | some fpair =>
  cases hpy : pyGet frames ((i : Int) - 1) with
  | none => simp [takeHitStep, ← List.get?_eq_getElem?, hget, hpy] at hstep
  | some prevPair =>
  simp only [takeHitStep, ← List.get?_eq_getElem?, hget, hpy] at hstep
  by_cases hin : (fpair.1.post.hitlag &&
      !(is_shielding prevPair.1.post.state)) = true
  · -- in hitlag: the output list is never touched
    rw [hin] at hstep
    simp only [Bool.not_true, Bool.false_eq_true, if_false] at hstep
    by_cases hopen : (!(prevPair.1.post.hitlag && !(is_shielding prevPair.1.post.state)) &&
        just_took_damage fpair.1.post.percent prevPair.1.post.percent) = true
    · rw [hopen] at hstep
      simp only [if_true] at hstep
      have := Except.ok.inj hstep
      subst this
      exact Or.inl rfl
    · rw [Bool.not_eq_true] at hopen
      rw [hopen] at hstep
      simp only [Bool.false_eq_true, if_false] at hstep
      cases hst1 : st.1 with
      | some ths =>
        rw [hst1] at hstep
        have := Except.ok.inj hstep
        subst this
        exact Or.inl rfl
      | none =>
        rw [hst1] at hstep
        have := Except.ok.inj hstep
        subst this
        exact Or.inl rfl
  · rw [Bool.not_eq_true] at hin
    rw [hin] at hstep
    simp only [Bool.not_false, if_true] at hstep
    cases hst1 : st.1 with
    | none =>
      rw [hst1] at hstep
      have := Except.ok.inj hstep
      subst this
      exact Or.inl rfl
    | some ths =>
      rw [hst1] at hstep
      by_cases hwas : (prevPair.1.post.hitlag &&
          !(is_shielding prevPair.1.post.state)) = true
      · rw [hwas] at hstep
        simp only [if_true] at hstep
        cases hclose : takeHitClose P kbCheck fpair.1 prevPair.1 ths with
        | error e => rw [hclose] at hstep; cases hstep
        | ok closed =>
          rw [hclose] at hstep
          have := Except.ok.inj hstep
          subst this
          exact Or.inr ⟨fpair, prevPair, ths, closed, rfl, rfl, rfl, hclose, rfl⟩
      · rw [Bool.not_eq_true] at hwas
        rw [hwas] at hstep
        simp only [Bool.false_eq_true, if_false] at hstep
        have := Except.ok.inj hstep
        subst this
        exact Or.inl rfl

theorem takeHitRun_ok_succ {P : TakeHitParams} {kbCheck : Bool}
    {frames : List (THFrame × THFrame)} {k : Nat}
    {fin : Option TakeHitData × List TakeHitData}
    (h : takeHitRun P kbCheck frames (k + 1) = .ok fin) :
    ∃ st, takeHitRun P kbCheck frames k = .ok st ∧
      takeHitStep P kbCheck frames k st = .ok fin := by
  rw [takeHitRun] at h
  cases hrun : takeHitRun P kbCheck frames k with
  | error e => rw [hrun] at h; cases h
  | ok st => rw [hrun] at h; exact ⟨st, rfl, h⟩

theorem takeHitRun_records (P : TakeHitParams)
    (frames : List (THFrame × THFrame)) :
    ∀ k st, takeHitRun P true frames k = .ok st →
      ∀ r ∈ st.2, ∀ kv, r.kb_velocity = some kv →
        ((kv.1 ≠ 0 ∧ kv.2 ≠ 0) →
          r.final_kb_angle = some (P.get_post_di_angle (r.di_stick_pos.getD (0, 0)) kv)) ∧
        ((kv.1 = 0 ∨ kv.2 = 0) → r.final_kb_angle = r.kb_angle) := by
  intro k
  induction k with
  | zero =>
    intro st h r hr
    have hst := Except.ok.inj h
    subst hst
    simp at hr
  | succ k ih =>
    intro st h r hr
    obtain ⟨st0, hrun0, hstep0⟩ := takeHitRun_ok_succ h
    rcases takeHitStep_out P true frames k st0 st hstep0 with hsame | hclosed
    · exact ih st0 hrun0 r (by rw [← hsame]; exact hr)
    · obtain ⟨fpair, prevPair, ths, closed, _, _, _, hclose, hout⟩ := hclosed
      rw [hout] at hr
      rcases List.mem_append.mp hr with hold | hnew
      · exact ih st0 hrun0 r hold
      · rcases List.mem_singleton.mp hnew with rfl
        obtain ⟨hkv, hka, hstick, hfinal⟩ :=
          takeHitClose_spec P fpair.1 prevPair.1 ths r hclose
        intro kv hkv2
        have hthskv : ths.kb_velocity = some kv := by rw [← hkv]; exact hkv2
        obtain ⟨h1, h2⟩ := hfinal kv hthskv
        constructor
        · intro hnz
          rw [h1 hnz, hstick]
          rfl
        · intro hz
          rw [h2 hz, hka]

/-- Claim C7 (corrected).  The original claim says the post-DI knockback
angle is computed via the deflection formula whenever the original
knockback SPEED is nonzero, and is left unchanged only at zero speed.
The source (stats_computer.py line 368) instead tests
`kb_velocity.x != 0.0 and kb_velocity.y != 0.0`: the formula is applied
exactly when BOTH components are nonzero, and a purely horizontal or
purely vertical knockback of nonzero speed keeps the original angle (see
the counterexample).  This theorem is the corrected branch condition, for
every record emitted by `take_hit_compute` with knockback data
available. -/
theorem claim_C7_final_kb_angle_branches (P : TakeHitParams)
    (frames : List (THFrame × THFrame)) (out : List TakeHitData)
    (h : take_hit_compute P true frames = .ok out) :
    ∀ r ∈ out, ∀ kv, r.kb_velocity = some kv →
      ((kv.1 ≠ 0 ∧ kv.2 ≠ 0) →
        r.final_kb_angle = some (P.get_post_di_angle (r.di_stick_pos.getD (0, 0)) kv)) ∧
      ((kv.1 = 0 ∨ kv.2 = 0) → r.final_kb_angle = r.kb_angle) := by
  unfold take_hit_compute at h
  cases hrun : takeHitRun P true frames frames.length with
  | error e => rw [hrun] at h; cases h
  | ok st =>
    rw [hrun] at h
    simp only [Except.map] at h
    have hst := Except.ok.inj h
    intro r hr
    exact takeHitRun_records P frames frames.length st hrun r (by rw [hst]; exact hr)

/-- Representative instantiation of the absent numeric helpers, used for
the concrete take-hit runs: a constant 18° deflection formula, identity
velocity reconstruction, and an angle of 0° (the true value of
`degrees(atan2(0, 1))` for the knockback vector `(1, 0)` used in the
example). -/
def cexParams : TakeHitParams :=
  { get_post_di_angle := fun _ _ => 18,
    get_post_di_velocity := fun _ v => v,
    get_angle_degrees := fun _ => 0 }

/-- Neutral frame pair for the take-hit scenario. -/
def thIdle : THFrame :=
  { pre := { joystick := (0, 0), cstick := (0, 0) },
    post := { state := WAIT, percent := 0, position := (0, 0),
              is_airborne := false, knockback_speed := (0, 0),
              most_recent_hit := 0, hitlag := false } }

/-- Counterexample input for claim C7: a hit on frame 1 with purely
horizontal knockback `(1, 0)` (nonzero speed, zero y-component), hitlag
ending on frame 2 with the stick held up. -/
def exC7 : List (THFrame × THFrame) :=
  [ (thIdle, thIdle),
    ({ pre := { joystick := (0, 0), cstick := (0, 0) },
       post := { state := DAMAGE_START, percent := 10, position := (0, 0),
                 is_airborne := true, knockback_speed := (1, 0),
                 most_recent_hit := 0, hitlag := true } }, thIdle),
    ({ pre := { joystick := (0, 1), cstick := (0, 0) },
       post := { state := WAIT, percent := 10, position := (0, 0),
                 is_airborne := true, knockback_speed := (0, 0),
                 most_recent_hit := 0, hitlag := false } }, thIdle) ]

/-- The record `take_hit_compute` emits for `exC7`. -/
def exC7rec : TakeHitData :=
  { frame_index := 1,
    last_hit_by := 0,
    state_before_hit := WAIT,
    grounded := false,
    crouch_cancel := false,
    hitlag_frames := 1,
    stick_regions_during_hitlag := [DEAD_ZONE],
    sdi_inputs := [],
    asdi := some REGION_UP,
    di_stick_pos := some (0, 1),
    percent := 10,
    kb_velocity := some (1, 0),
    kb_angle := some 0,
    final_kb_velocity := some (1, 0),
    final_kb_angle := some 0,
    start_pos := (0, 0),
    end_pos := some (0, 0),
    di_efficacy := none }

/-- Claim C7 (refutation).  On `exC7` the original knockback velocity is
`(1, 0)` — nonzero speed — yet the emitted record's final knockback angle
equals the original angle (0°) rather than the deflection-formula value
(18° under `cexParams`), because the code's branch requires BOTH velocity
components to be nonzero. -/
theorem claim_C7_counterexample :
    take_hit_compute cexParams true exC7 = .ok [exC7rec]
    ∧ exC7rec.kb_velocity = some (1, 0)
    ∧ ((1 : Rat), (0 : Rat)).1 ≠ 0
    ∧ exC7rec.final_kb_angle = some 0
    ∧ cexParams.get_post_di_angle (exC7rec.di_stick_pos.getD (0, 0)) (1, 0) = 18
    ∧ exC7rec.final_kb_angle ≠
        some (cexParams.get_post_di_angle (exC7rec.di_stick_pos.getD (0, 0)) (1, 0)) := by
  refine ⟨by rfl, rfl, by norm_num, rfl, rfl, by decide⟩

theorem claim_C7_witness :
    take_hit_compute cexParams true exC7 = .ok [exC7rec]
    ∧ exC7rec.final_kb_angle = exC7rec.kb_angle :=
  ⟨by rfl,
   (claim_C7_final_kb_angle_branches cexParams exC7 [exC7rec] (by rfl)
      exC7rec (List.mem_singleton.mpr rfl) (1, 0) rfl).2 (Or.inr rfl)⟩

/-! ## Combo classifier

Embedding of `ComboComputer.combo_compute` from
`src/slippistats/stats/combo_computer.py` (lines 135-305), together with
`ComboData`/`MoveLanded`/`ComboState` (lines 46-101).  The state-range
helper predicates live in the absent `stats/common.py`; they are modelled
from the spec as range membership against the `ActionRange` constants of
`enums/state.py` (which is among the sources).  The two
coordinate-threshold helpers (`is_offstage`, `is_maybe_juggled`) depend on
per-stage boundary tables that are not among the sources; their thresholds
are abstracted into parameters. -/

structure CPost where
  state : Int
  percent : Rat
  stocks_remaining : Nat
  state_age : Rat
  position : Rat × Rat
  is_airborne : Bool
  most_recent_hit : Int
  hitlag : Bool
  hitstun : Bool
deriving Repr, DecidableEq, Inhabited

structure CFramePair where
  player : CPost
  opponent : CPost
deriving Repr, DecidableEq, Inhabited

/-- Modelled from the spec: action-state-range helpers of the absent
`stats/common.py`, using the `ActionRange` constants from
`enums/state.py`. -/
def is_damaged (s : Int) : Bool := DAMAGE_START ≤ s && s ≤ DAMAGE_END

def is_grabbed (s : Int) : Bool := CAPTURE_START ≤ s && s ≤ CAPTURE_END

def is_cmd_grabbed (s : Int) : Bool :=
  (COMMAND_GRAB_RANGE1_START ≤ s && s ≤ COMMAND_GRAB_RANGE1_END) ||
  (COMMAND_GRAB_RANGE2_START ≤ s && s ≤ COMMAND_GRAB_RANGE2_END)

def is_teching (s : Int) : Bool := TECH_START ≤ s && s ≤ TECH_END

def is_downed (s : Int) : Bool := DOWN_START ≤ s && s ≤ DOWN_END

def is_dying (s : Int) : Bool := DYING_START ≤ s && s ≤ DYING_END

def is_shield_broken (s : Int) : Bool := GUARD_BREAK_START ≤ s && s ≤ GUARD_BREAK_END

def is_ledge_action (s : Int) : Bool := LEDGE_ACTION_START ≤ s && s ≤ LEDGE_ACTION_END

def is_special_fall (s : Int) : Bool := FALL_SPECIAL_START ≤ s && s ≤ FALL_SPECIAL_END

def is_dodging (s : Int) : Bool := DODGE_START ≤ s && s ≤ DODGE_END

/-- Modelled from the spec: "in up-B landing lag" — special landing lag
not entered from an air dodge. -/
def is_upb_lag (s prev : Int) : Bool :=
  s == LAND_FALL_SPECIAL && !(is_dodging prev)

/-- Modelled from the spec: "dodging-and-not-wavedashing" — an air dodge
that turns into special landing lag within the next few frames is a
wavedash, not a defensive dodge. -/
def is_wavedashing (s : Int) (i : Nat) (frames : List CFramePair) : Bool :=
  is_dodging s &&
    (List.range 5).any (fun j =>
      match frames.get? (i + j) with
      | some f => f.opponent.state == LAND_FALL_SPECIAL
      | none => false)

/-- Modelled from the spec: "offstage" coordinate check; the per-stage
horizontal boundary is abstracted into `stageEdge`. -/
def is_offstage (pos : Rat × Rat) (stageEdge : Rat) : Bool :=
  pos.2 < -5 || pos.1 < -stageEdge || pos.1 > stageEdge

/-- Modelled from the spec: "possibly juggled" — airborne above a
per-stage height threshold `juggleY`. -/
def is_maybe_juggled (pos : Rat × Rat) (airborne : Bool) (juggleY : Rat) : Bool :=
  airborne && pos.2 > juggleY

/-- Modelled from the spec: opponent stock loss between consecutive
frames. -/
def did_lose_stock (cur prev : CPost) : Bool :=
  cur.stocks_remaining < prev.stocks_remaining

/-- Modelled from the spec: damage taken this frame (percent delta);
`combo_compute` tests its truthiness, i.e. `≠ 0`. -/
def calc_damage_taken (cur prev : CPost) : Rat :=
  cur.percent - prev.percent

/-- Modelled from the spec: maps a dying action state to a death
direction (the source maps to a name string; the state id is kept). -/
def get_death_direction (s : Int) : Int := s

def COMBO_LENIENCY : Nat := 45

/-- Embedding of `MoveLanded` (combo_computer.py lines 46-55). -/
structure MoveLanded where
  frame_index : Int
  move_id : Int
  hit_count : Nat
  damage : Rat
  opponent_position : Rat × Rat
deriving Repr, DecidableEq, Inhabited

/-- Embedding of `ComboData` (combo_computer.py lines 58-91), with the
dataclass defaults. -/
structure ComboData where
  moves : List MoveLanded := []
  did_kill : Bool := false
  death_direction : Option Int := none
  player_stocks : Nat := 4
  opponent_stocks : Nat := 4
  did_end_game : Bool := false
  start_percent : Rat := 0
  current_percent : Rat := 0
  end_percent : Rat := 0
  start_frame : Int := 0
  end_frame : Int := 0
deriving Repr, DecidableEq, Inhabited

/-- Embedding of `ComboData.total_damage`. -/
def ComboData.total_damage (c : ComboData) : Rat :=
  c.end_percent - c.start_percent

/-- The `self.combo_state.move` slot: `None`, a `MoveLanded` object that
is the last element of the active combo's `moves` list (Python mutates it
through that alias), or a detached `MoveLanded` object not referenced by
any combo (the dataclass default, and any move surviving from before a
combo ended). -/
inductive MoveSlot where
  | mnone
  | detached (m : MoveLanded)
  | attached
deriving Repr, DecidableEq

/-- Embedding of `ComboState` (combo_computer.py lines 94-101).
`comboIsEmitted` records whether the active `ComboData` object has been
appended to `player.combos` (Python appends at creation and mutates the
object in place; the dataclass-default initial combo was never appended,
so closing it emits nothing). -/
structure ComboState where
  combo : Option ComboData
  comboIsEmitted : Bool
  move : MoveSlot
  reset_counter : Nat
  last_hit_animation : Option Int
deriving Repr, DecidableEq

/-- Initial `ComboState()`: note the Python dataclass defaults — the
initial `combo` is a default `ComboData` object (not `None`), and the
initial `move` a default `MoveLanded` object. -/
def initComboState : ComboState :=
  { combo := some ({} : ComboData), comboIsEmitted := false,
    move := .detached default, reset_counter := 0, last_hit_animation := none }

/-- Increment hit count / accumulate damage on the last move of the
active combo's list (the Python mutation through the aliased
`combo_state.move`). -/
def updateLastMove (moves : List MoveLanded) (dmg : Rat) : List MoveLanded :=
  match moves.getLast? with
  | none => moves
  | some m =>
    moves.dropLast ++ [{ m with hit_count := m.hit_count + 1, damage := m.damage + dmg }]

/-- The per-classifier toggles of `combo_compute` (all default `True`). -/
structure ComboChecks where
  hitstun_check : Bool := true
  hitlag_check : Bool := true
  tech_check : Bool := true
  downed_check : Bool := true
  offstage_check : Bool := true
  dodge_check : Bool := true
  shield_check : Bool := true
  shield_break_check : Bool := true
  ledge_check : Bool := true
deriving Repr, DecidableEq

/-- Last-hit-animation bookkeeping (combo_computer.py lines 181-186):
clear the memo when the player action state changed since the last hit or
its frames-since-state-entry counter reset. -/
def comboBookkeep (frames : List CFramePair) (i : Nat) (cs : ComboState) :
    ComboState :=
  let pair := frames.getD i default
  let prevPair := (pyGet frames ((i : Int) - 1)).getD default
  let action_changed_since_hit := !(cs.last_hit_animation == some pair.player.state)
  let action_state_reset : Bool :=
    pair.player.state_age < prevPair.player.state_age
  if action_changed_since_hit || action_state_reset then
    { cs with last_hit_animation := none }
  else cs

/-- Combo creation (combo_computer.py lines 193-203): when no combo is
active, build a fresh `ComboData` (backdating `start_frame` by the fixed
123-frame constant) and append it to `player.combos`
(`comboIsEmitted := true`). -/
def comboMaybeCreate (frames : List CFramePair) (i : Nat) (cs : ComboState) :
    ComboState :=
  let pair := frames.getD i default
  let prevPair := (pyGet frames ((i : Int) - 1)).getD default
  if cs.combo.isNone then
    { cs with
      combo := some
        { player_stocks := pair.player.stocks_remaining,
          opponent_stocks := pair.opponent.stocks_remaining,
          start_frame := (i : Int) - 123,
          start_percent := prevPair.opponent.percent,
          current_percent := pair.opponent.percent,
          end_percent := pair.opponent.percent },
      comboIsEmitted := true }
  else cs

/-- Move creation on a damaging frame when no move is open
(combo_computer.py lines 208-215): a fresh `MoveLanded` appended to the
active combo's list, with `combo_state.move` aliasing it. -/
def comboMoveCreate (frames : List CFramePair) (i : Nat) (cs : ComboState) :
    ComboState :=
  let pair := frames.getD i default
  if cs.last_hit_animation.isNone then
    { cs with
      move := .attached,
      combo :=
        match cs.combo with
        | some c => some { c with moves := c.moves ++
            [{ frame_index := (i : Int) - 123,
               move_id := pair.player.most_recent_hit,
               hit_count := 0, damage := 0,
               opponent_position := pair.opponent.position }] }
        | none => none }
  else cs

/-- Hit-count / damage accumulation through the aliased
`combo_state.move` (combo_computer.py lines 217-219); a no-op only when
the slot holds `None`. -/
def comboMoveUpdate (opnt_damage_taken : Rat) (cs : ComboState) : ComboState :=
  match cs.move with
  | .attached =>
    { cs with
      combo :=
        match cs.combo with
        | some c => some { c with moves := updateLastMove c.moves opnt_damage_taken }
        | none => none }
  | .detached m =>
    let m2 := { m with hit_count := m.hit_count + 1,
                       damage := m.damage + opnt_damage_taken }
    { cs with move := MoveSlot.detached m2 }
  | .mnone => cs

/-- Move creation and accrual on a damaging frame (combo_computer.py
lines 207-221). -/
def comboMoveAccrue (frames : List CFramePair) (i : Nat) (cs : ComboState) :
    ComboState :=
  let pair := frames.getD i default
  let prevPair := (pyGet frames ((i : Int) - 1)).getD default
  let opnt_damage_taken := calc_damage_taken pair.opponent prevPair.opponent
  { comboMoveUpdate opnt_damage_taken (comboMoveCreate frames i cs) with
    last_hit_animation := some prevPair.player.state }

/-- The first half of the loop body (combo_computer.py lines 160-225):
last-hit-animation bookkeeping, then — when the opponent is damaged,
grabbed, command-grabbed or in hitstun — combo creation and, on a
damaging frame, move creation/accrual. -/
def comboHitPhase (ck : ComboChecks) (frames : List CFramePair) (i : Nat)
    (cs : ComboState) : ComboState :=
  let pair := frames.getD i default
  let prevPair := (pyGet frames ((i : Int) - 1)).getD default
  let opnt_action_state := pair.opponent.state
  let cs1 := comboBookkeep frames i cs
  if is_damaged opnt_action_state || is_grabbed opnt_action_state ||
      is_cmd_grabbed opnt_action_state ||
      (pair.opponent.hitstun && ck.hitstun_check) then
    let cs2 := comboMaybeCreate frames i cs1
    if calc_damage_taken pair.opponent prevPair.opponent ≠ 0 then
      comboMoveAccrue frames i cs2
    else cs2
  else cs1

/-- The in-place mutations of the active combo object during the second
half of the loop body (combo_computer.py lines 251-252, 285-291):
current-percent update, death direction, kill / end-game flags.  None of
them touches `start_frame`. -/
def comboTailUpdates (frames : List CFramePair) (i : Nat) (combo0 : ComboData) :
    ComboData :=
  let pair := frames.getD i default
  let prevPair := (pyGet frames ((i : Int) - 1)).getD default
  let opnt_did_lose_stock := did_lose_stock pair.opponent prevPair.opponent
  let combo1 :=
    if !opnt_did_lose_stock then { combo0 with current_percent := pair.opponent.percent }
    else combo0
  let combo2 :=
    if is_dying pair.opponent.state then
      { combo1 with death_direction := some (get_death_direction pair.opponent.state) }
    else combo1
  if opnt_did_lose_stock then
    let c := { combo2 with did_kill := true }
    if pair.opponent.stocks_remaining = 0 then { c with did_end_game := true } else c
  else combo2

/-- The second half of the loop body (combo_computer.py lines 224-304):
reset-counter update, termination checks, close-out. -/
def comboTailPhase (ck : ComboChecks) (stageEdge juggleY : Rat)
    (frames : List CFramePair) (i : Nat)
    (cs : ComboState) (finished : List ComboData) :
    ComboState × List ComboData :=
  match cs.combo with
  | none => (cs, finished)
  | some combo0 =>
    let pair := frames.getD i default
    let prevPair := (pyGet frames ((i : Int) - 1)).getD default
    let player_frame := pair.player
    let prev_player_frame := prevPair.player
    let opponent_frame := pair.opponent
    let prev_opponent_frame := prevPair.opponent
    let opnt_action_state := opponent_frame.state
    let opnt_is_in_hitlag := opponent_frame.hitlag && ck.hitlag_check
    let opnt_is_teching := is_teching opnt_action_state && ck.tech_check
    let opnt_is_downed := is_downed opnt_action_state && ck.downed_check
    let opnt_is_dying := is_dying opnt_action_state
    let opnt_is_offstage := is_offstage opponent_frame.position stageEdge && ck.offstage_check
    let opnt_is_dodging := is_dodging opnt_action_state && ck.dodge_check &&
      !(is_wavedashing opnt_action_state i frames)
    let opnt_is_shielding := is_shielding opnt_action_state && ck.shield_check
    let opnt_is_shield_broken := is_shield_broken opnt_action_state && ck.shield_break_check
    let opnt_did_lose_stock := did_lose_stock opponent_frame prev_opponent_frame
    let opnt_is_ledge_action := is_ledge_action opnt_action_state && ck.ledge_check
    let opnt_is_maybe_juggled :=
      is_maybe_juggled opponent_frame.position opponent_frame.is_airborne juggleY
    let opnt_is_special_fall := is_special_fall opnt_action_state
    let opnt_is_upb_lag := is_upb_lag opnt_action_state prev_opponent_frame.state
    let opnt_is_damaged := is_damaged opnt_action_state
    let opnt_is_grabbed := is_grabbed opnt_action_state
    let opnt_is_cmd_grabbed := is_cmd_grabbed opnt_action_state
    let opnt_is_in_hitstun := opponent_frame.hitstun && ck.hitstun_check
    let combo3 := comboTailUpdates frames i combo0
    let player_did_lose_stock := did_lose_stock player_frame prev_player_frame
    let cs :=
      if opnt_is_damaged || opnt_is_grabbed || opnt_is_cmd_grabbed || opnt_is_in_hitlag ||
          opnt_is_in_hitstun || opnt_is_shielding || opnt_is_offstage || opnt_is_dodging ||
          opnt_is_dying || opnt_is_downed || opnt_is_teching || opnt_is_ledge_action ||
          opnt_is_shield_broken || opnt_is_maybe_juggled || opnt_is_special_fall ||
          opnt_is_upb_lag then
        { cs with reset_counter := 0 }
      else
        { cs with reset_counter := cs.reset_counter + 1 }
    let should_terminate :=
      opnt_did_lose_stock || decide (cs.reset_counter > COMBO_LENIENCY) || player_did_lose_stock
    if should_terminate then
      let combo4 := { combo3 with
        end_frame := (i : Int) - 123,
        end_percent := prev_opponent_frame.percent }
      ({ cs with combo := none, move := .mnone },
       if cs.comboIsEmitted then finished ++ [combo4] else finished)
    else
      ({ cs with combo := some combo3 }, finished)

def comboStep (ck : ComboChecks) (stageEdge juggleY : Rat)
    (frames : List CFramePair) (i : Nat)
    (st : ComboState × List ComboData) : ComboState × List ComboData :=
  comboTailPhase ck stageEdge juggleY frames i
    (comboHitPhase ck frames i st.1) st.2

def comboRun (ck : ComboChecks) (stageEdge juggleY : Rat)
    (frames : List CFramePair) : Nat → ComboState × List ComboData
  | 0 => (initComboState, [])
  | k + 1 => comboStep ck stageEdge juggleY frames k (comboRun ck stageEdge juggleY frames k)

/-- Embedding of `ComboComputer.combo_compute`: `player.combos` after the
pass.  Combos are appended to `player.combos` at creation and mutated in
place until closed, so the returned list is the closed (emitted) combos
followed by the still-open appended combo, if any. -/
def combo_compute (ck : ComboChecks) (stageEdge juggleY : Rat)
    (frames : List CFramePair) : List ComboData :=
  let (cs, finished) := comboRun ck stageEdge juggleY frames frames.length
  finished ++ (if cs.comboIsEmitted then cs.combo.toList else [])

/-- Neutral combo-frame post state at a given damage percent. -/
def cIdle (p : Rat) : CPost :=
  { state := WAIT, percent := p, stocks_remaining := 4, state_age := 0,
    position := (0, 0), is_airborne := false, most_recent_hit := 0,
    hitlag := false, hitstun := false }

/-- Counterexample input for claim C3 (160 aligned frame pairs, player
always idle):
frames 0-49 opponent idle at 0% (the dataclass-default initial combo
object times out at frame 45); frame 50 opponent grabbed (combo created,
no damage); frame 51 opponent back to idle but its percent has risen to
10 (damage taken outside every combo-extending state, so no move is
recorded); frames 52-149 idle at 10% (the combo times out at frame 96
with end_percent 10, start_percent 0, empty move list); frame 150
opponent in a damage state at 20% (second combo created, start_frame
150 - 123 = 27); frames 151-159 idle at 20% (the game ends with the
second combo still open, so its end_frame keeps the dataclass default
0). -/
def exC3 : List CFramePair :=
  List.replicate 50 ⟨cIdle 0, cIdle 0⟩ ++
  [⟨cIdle 0, { cIdle 0 with state := 224 }⟩] ++
  List.replicate 98 ⟨cIdle 0, cIdle 10⟩ ++
  [⟨cIdle 0, { cIdle 20 with state := DAMAGE_START }⟩] ++
  List.replicate 9 ⟨cIdle 0, cIdle 20⟩


theorem comboBookkeep_combo (frames : List CFramePair) (i : Nat) (cs : ComboState) :
    (comboBookkeep frames i cs).combo = cs.combo ∧
    (comboBookkeep frames i cs).comboIsEmitted = cs.comboIsEmitted := by
  unfold comboBookkeep
  dsimp only
  split <;> exact ⟨rfl, rfl⟩

theorem comboMaybeCreate_start (frames : List CFramePair) (i : Nat) (cs : ComboState)
    (h : cs.comboIsEmitted = true →
      ∀ c, cs.combo = some c → c.start_frame ≤ (i : Int) - 123) :
    (comboMaybeCreate frames i cs).comboIsEmitted = true →
      ∀ c', (comboMaybeCreate frames i cs).combo = some c' →
        c'.start_frame ≤ (i : Int) - 123 := by
  unfold comboMaybeCreate
  dsimp only
  split
  · intro _ c' hc
    injection hc with hc2
    subst hc2
    dsimp only
    omega
  · exact h

theorem comboMoveCreate_start (frames : List CFramePair) (i : Nat) (cs : ComboState)
    (h : cs.comboIsEmitted = true →
      ∀ c, cs.combo = some c → c.start_frame ≤ (i : Int) - 123) :
    (comboMoveCreate frames i cs).comboIsEmitted = true →
      ∀ c', (comboMoveCreate frames i cs).combo = some c' →
        c'.start_frame ≤ (i : Int) - 123 := by
  unfold comboMoveCreate
  dsimp only
  split
  · intro he c' hc
    dsimp only at he hc
    cases hcs : cs.combo with
    | none => rw [hcs] at hc; exact Option.noConfusion hc
    | some c =>
      rw [hcs] at hc
      dsimp only at hc
      injection hc with hc2
      subst hc2
      exact h he c hcs
  · exact h

theorem comboMoveUpdate_start (dmg : Rat) (i : Nat) (cs : ComboState)
    (h : cs.comboIsEmitted = true →
      ∀ c, cs.combo = some c → c.start_frame ≤ (i : Int) - 123) :
    (comboMoveUpdate dmg cs).comboIsEmitted = true →
      ∀ c', (comboMoveUpdate dmg cs).combo = some c' →
        c'.start_frame ≤ (i : Int) - 123 := by
  unfold comboMoveUpdate
  cases hm : cs.move with
  | attached =>
    intro he c' hc
    dsimp only at he hc
    cases hcs : cs.combo with
    | none => rw [hcs] at hc; exact Option.noConfusion hc
    | some c =>
      rw [hcs] at hc
      dsimp only at hc
      injection hc with hc2
      subst hc2
      exact h he c hcs
  | detached m => exact h
  | mnone => exact h

theorem comboMoveAccrue_start (frames : List CFramePair) (i : Nat) (cs : ComboState)
    (h : cs.comboIsEmitted = true →
      ∀ c, cs.combo = some c → c.start_frame ≤ (i : Int) - 123) :
    (comboMoveAccrue frames i cs).comboIsEmitted = true →
      ∀ c', (comboMoveAccrue frames i cs).combo = some c' →
        c'.start_frame ≤ (i : Int) - 123 := by
  unfold comboMoveAccrue
  dsimp only
  exact comboMoveUpdate_start _ i _ (comboMoveCreate_start frames i cs h)

theorem comboHitPhase_start (ck : ComboChecks) (frames : List CFramePair)
    (i : Nat) (cs : ComboState)
    (h : cs.comboIsEmitted = true →
      ∀ c, cs.combo = some c → c.start_frame ≤ (i : Int) - 123) :
    (comboHitPhase ck frames i cs).comboIsEmitted = true →
      ∀ c', (comboHitPhase ck frames i cs).combo = some c' →
        c'.start_frame ≤ (i : Int) - 123 := by
  have h1 : (comboBookkeep frames i cs).comboIsEmitted = true →
      ∀ c, (comboBookkeep frames i cs).combo = some c →
        c.start_frame ≤ (i : Int) - 123 := by
    obtain ⟨hc, he⟩ := comboBookkeep_combo frames i cs
    rw [hc, he]
    exact h
  unfold comboHitPhase
  dsimp only
  split
  · split
    · exact comboMoveAccrue_start frames i _ (comboMaybeCreate_start frames i _ h1)
    · exact comboMaybeCreate_start frames i _ h1
  · exact h1

theorem comboTailUpdates_start (frames : List CFramePair) (i : Nat)
    (combo0 : ComboData) :
    (comboTailUpdates frames i combo0).start_frame = combo0.start_frame := by
  unfold comboTailUpdates
  dsimp only
  repeat' split
  all_goals rfl

theorem comboTailPhase_inv (ck : ComboChecks) (stageEdge juggleY : Rat)
    (frames : List CFramePair) (i : Nat) (cs : ComboState)
    (fin : List ComboData)
    (hfin : ∀ c ∈ fin, c.start_frame ≤ c.end_frame)
    (hact : cs.comboIsEmitted = true →
      ∀ c, cs.combo = some c → c.start_frame ≤ (i : Int) - 123) :
    (∀ c ∈ (comboTailPhase ck stageEdge juggleY frames i cs fin).2,
        c.start_frame ≤ c.end_frame) ∧
    ((comboTailPhase ck stageEdge juggleY frames i cs fin).1.comboIsEmitted =
        cs.comboIsEmitted) ∧
    ((comboTailPhase ck stageEdge juggleY frames i cs fin).1.comboIsEmitted = true →
      ∀ c, (comboTailPhase ck stageEdge juggleY frames i cs fin).1.combo = some c →
        c.start_frame ≤ (i : Int) - 123) := by
  unfold comboTailPhase
  cases hcs : cs.combo with
  | none => exact ⟨hfin, rfl, by rw [hcs] at hact ⊢; exact hact⟩
  | some combo0 =>
    dsimp only
    split
    · -- reset counter hit zero
      split
      · -- terminated
        refine ⟨?_, rfl, ?_⟩
        · split
          · intro c hc
            rcases List.mem_append.mp hc with hold | hnew
            · exact hfin c hold
            · rcases List.mem_singleton.mp hnew with rfl
              dsimp only
              rw [comboTailUpdates_start]
              have := hact (by assumption) combo0 hcs
              omega
          · exact hfin
        · intro _ c hc
          exact Option.noConfusion hc
      · -- still active
        refine ⟨hfin, rfl, ?_⟩
        intro he c hc
        dsimp only at he hc
        injection hc with hc2
        subst hc2
        rw [comboTailUpdates_start]
        exact hact he combo0 hcs
    · split
      · refine ⟨?_, rfl, ?_⟩
        · split
          · intro c hc
            rcases List.mem_append.mp hc with hold | hnew
            · exact hfin c hold
            · rcases List.mem_singleton.mp hnew with rfl
              dsimp only
              rw [comboTailUpdates_start]
              have := hact (by assumption) combo0 hcs
              omega
          · exact hfin
        · intro _ c hc
          exact Option.noConfusion hc
      · refine ⟨hfin, rfl, ?_⟩
        intro he c hc
        dsimp only at he hc
        injection hc with hc2
        subst hc2
        rw [comboTailUpdates_start]
        exact hact he combo0 hcs

theorem comboRun_inv (ck : ComboChecks) (stageEdge juggleY : Rat)
    (frames : List CFramePair) :
    ∀ k,
      (∀ c ∈ (comboRun ck stageEdge juggleY frames k).2,
        c.start_frame ≤ c.end_frame) ∧
      ((comboRun ck stageEdge juggleY frames k).1.comboIsEmitted = true →
        ∀ c, (comboRun ck stageEdge juggleY frames k).1.combo = some c →
          c.start_frame ≤ (k : Int) - 124) := by
  intro k
  induction k with
  | zero =>
    refine ⟨by simp [comboRun], ?_⟩
    intro he c hc
    simp [comboRun, initComboState] at he
  | succ k ih =>
    obtain ⟨hfin, hact⟩ := ih
    rw [comboRun]
    unfold comboStep
    have hact' : (comboRun ck stageEdge juggleY frames k).1.comboIsEmitted = true →
        ∀ c, (comboRun ck stageEdge juggleY frames k).1.combo = some c →
          c.start_frame ≤ (k : Int) - 123 := by
      intro he c hc
      have := hact he c hc
      omega
    have hhit := comboHitPhase_start ck frames k
      (comboRun ck stageEdge juggleY frames k).1 hact'
    obtain ⟨h1, _, h3⟩ := comboTailPhase_inv ck stageEdge juggleY frames k
      (comboHitPhase ck frames k (comboRun ck stageEdge juggleY frames k).1)
      (comboRun ck stageEdge juggleY frames k).2 hfin hhit
    refine ⟨h1, ?_⟩
    intro he c hc
    have := h3 he c hc
    omega

/-- Claim C3 (corrected).  Of the three claimed invariants for combos
emitted by `combo_compute`:
`total_damage() == end_percent - start_percent` holds unconditionally (it
is the definition of `total_damage`); `end_frame >= start_frame` holds
for every combo that is CLOSED during the pass (first conjunct, about
`comboRun`'s list of closed combos) but fails for a combo still open
when the frame array ends, which `combo_compute` emits with its
dataclass-default `end_frame = 0` (the combo was already appended to
`player.combos` at creation); and the moves list can be empty with
positive `total_damage()` when the opponent's percent rises on frames
where it is in none of the damaged/grabbed/command-grabbed/hitstun
states.  The counterexample exhibits both failures. -/
theorem claim_C3_combo_invariants (ck : ComboChecks) (stageEdge juggleY : Rat)
    (frames : List CFramePair) :
    (∀ c ∈ combo_compute ck stageEdge juggleY frames,
      c.total_damage = c.end_percent - c.start_percent) ∧
    (∀ c ∈ (comboRun ck stageEdge juggleY frames frames.length).2,
      c.start_frame ≤ c.end_frame) := by
  constructor
  · intro c _
    rfl
  · exact (comboRun_inv ck stageEdge juggleY frames frames.length).1

/-- The first, closed combo that `combo_compute` emits on `exC3`: grab at
frame 50, a 10% rise outside any combo-extending state at frame 51,
timeout close at frame 96. -/
def exC3comboA : ComboData :=
  { moves := [], start_percent := 0, current_percent := 10, end_percent := 10,
    start_frame := -73, end_frame := -27 }

/-- The second combo `combo_compute` emits on `exC3`: created at frame
149, still open when the frames end, `end_frame` left at the dataclass
default 0. -/
def exC3comboB : ComboData :=
  { moves := [{ frame_index := 26, move_id := 0, hit_count := 1, damage := 10,
                opponent_position := (0, 0) }],
    start_percent := 10, current_percent := 20, end_percent := 20,
    start_frame := 26, end_frame := 0 }

/-- `comboStep` iterated `n` times starting at frame index `a`, used to
evaluate `comboRun` on concrete inputs in bounded-depth chunks. -/
def comboIter (ck : ComboChecks) (stageEdge juggleY : Rat)
    (frames : List CFramePair) :
    Nat → Nat → ComboState × List ComboData → ComboState × List ComboData
  | _, 0, st => st
  | a, n + 1, st =>
    comboIter ck stageEdge juggleY frames (a + 1) n
      (comboStep ck stageEdge juggleY frames a st)

theorem comboRun_iter (ck : ComboChecks) (stageEdge juggleY : Rat)
    (frames : List CFramePair) :
    ∀ (n a : Nat), comboRun ck stageEdge juggleY frames (a + n) =
      comboIter ck stageEdge juggleY frames a n
        (comboRun ck stageEdge juggleY frames a)
  | 0, _ => rfl
  | n + 1, a => by
    have h : a + (n + 1) = (a + 1) + n := by omega
    rw [h, comboRun_iter ck stageEdge juggleY frames n (a + 1)]
    rfl

/-- State of the `exC3` pass after 40 frames (all idle). -/
def exC3state40 : ComboState × List ComboData :=
  ({ combo := some ({} : ComboData), comboIsEmitted := false,
     move := MoveSlot.detached
       { frame_index := 0, move_id := 0, hit_count := 0, damage := 0,
         opponent_position := (0, 0) },
     reset_counter := 40, last_hit_animation := none }, [])

/-- State of the `exC3` pass after 80 frames (grab at 50, percent rise at
51, combo A open). -/
def exC3state80 : ComboState × List ComboData :=
  ({ combo := some
       { moves := [], start_percent := 0, current_percent := 10,
         end_percent := 0, start_frame := -73, end_frame := 0 },
     comboIsEmitted := true, move := MoveSlot.mnone,
     reset_counter := 29, last_hit_animation := none }, [])

/-- State of the `exC3` pass after 120 frames (combo A timed out and
closed at frame 96). -/
def exC3state120 : ComboState × List ComboData :=
  ({ combo := none, comboIsEmitted := true, move := MoveSlot.mnone,
     reset_counter := 46, last_hit_animation := none }, [exC3comboA])

/-- State of the `exC3` pass after all 159 frames (combo B open). -/
def exC3state159 : ComboState × List ComboData :=
  ({ combo := some exC3comboB, comboIsEmitted := true,
     move := MoveSlot.attached, reset_counter := 9,
     last_hit_animation := some 14 }, [exC3comboA])

set_option maxRecDepth 4000 in
theorem exC3run40 : comboRun {} 1000 1000 exC3 40 = exC3state40 := by
  with_unfolding_all rfl

set_option maxRecDepth 4000 in
theorem exC3run80 : comboRun {} 1000 1000 exC3 80 = exC3state80 := by
  have h : (80 : Nat) = 40 + 40 := rfl
  rw [h, comboRun_iter, exC3run40]
  with_unfolding_all rfl

set_option maxRecDepth 4000 in
theorem exC3run120 : comboRun {} 1000 1000 exC3 120 = exC3state120 := by
  have h : (120 : Nat) = 80 + 40 := rfl
  rw [h, comboRun_iter, exC3run80]
  with_unfolding_all rfl

set_option maxRecDepth 4000 in
theorem exC3run159 : comboRun {} 1000 1000 exC3 exC3.length = exC3state159 := by
  have hlen : exC3.length = 120 + 39 := by with_unfolding_all rfl
  rw [hlen, comboRun_iter, exC3run120]
  with_unfolding_all rfl

set_option maxRecDepth 4000 in
/-- Claim C3 (refutation).  On `exC3`, `combo_compute` emits a closed
combo with `total_damage() = 10 > 0` and an empty moves list, and a
still-open combo with `end_frame = 0 < 26 = start_frame`. -/
theorem claim_C3_counterexample :
    combo_compute {} 1000 1000 exC3 = [exC3comboA, exC3comboB]
    ∧ (exC3comboA.total_damage > 0 ∧ exC3comboA.moves = [])
    ∧ exC3comboB.end_frame < exC3comboB.start_frame := by
  refine ⟨?_, ⟨by with_unfolding_all decide, rfl⟩, by decide⟩
  unfold combo_compute
  rw [exC3run159]
  with_unfolding_all rfl

set_option maxRecDepth 4000 in
theorem claim_C3_witness :
    (comboRun ({} : ComboChecks) 1000 1000 exC3 exC3.length).2 = [exC3comboA]
    ∧ exC3comboA.total_damage = exC3comboA.end_percent - exC3comboA.start_percent
    ∧ exC3comboA.start_frame ≤ exC3comboA.end_frame :=
  ⟨by rw [exC3run159]; rfl,
   (claim_C3_combo_invariants {} 1000 1000 exC3).1 exC3comboA
     (by have hc : combo_compute ({} : ComboChecks) 1000 1000 exC3 =
           [exC3comboA, exC3comboB] := by
           unfold combo_compute
           rw [exC3run159]
           with_unfolding_all rfl
         rw [hc]
         exact List.mem_cons_self _ _),
   (claim_C3_combo_invariants {} 1000 1000 exC3).2 exC3comboA
     (by rw [exC3run159]
         exact List.mem_singleton.mpr rfl)⟩


/-! ### Event-stream decoding: `parse.py`

Embedding of `_parse_event`, `_parse_events` and `_parse_try`
(`src/slippistats/parse.py` lines 93-124, 299-322 and 349-370).  A
Python binary stream is modelled as a byte list plus a read position;
`io.BytesIO.read(n)` returns up to `n` bytes and advances past what it
returned.  The event classes `Start`, `End` and `Frame.Event` live in
the absent `event.py` and are modelled from the spec; the
`current_frame` bookkeeping of `_parse_events` (which only groups the
decoded frame events into `Frame` objects for the handlers) is dropped,
and `skip_frames` is `False`. -/

/-- A Python binary stream (`io.BytesIO` / `mmap`): `data` is the whole
buffer, `pos` the current position. -/
structure ByteStream where
  data : List Nat
  pos : Nat
deriving Repr, DecidableEq, Inhabited

/-- `stream.read n`: return up to `n` bytes from the current position
and advance past them (Python returns fewer bytes, without raising, when
the stream is short). -/
def ByteStream.read (s : ByteStream) (n : Nat) : List Nat × ByteStream :=
  let chunk := (s.data.drop s.pos).take n
  (chunk, { s with pos := s.pos + chunk.length })

/-- Modelled from the spec: `unpack_uint8` (absent `util.py`) unpacks
exactly one byte, raising `struct.error` on a short read. -/
def unpack_uint8 (b : List Nat) : Except Unit Nat :=
  match b with
  | [x] => .ok x
  | _ => .error ()

/-- Modelled from the spec: the decoded event object, as far as the
event loop inspects it — `isinstance(event, End)` is the only test
`_parse_events` performs.  `noneEv` is Python `None`, the value of
`event` before the first iteration and after a code with a known
payload size but no `EVENT_PARSE_DISPATCH` entry. -/
inductive PyEv where
  | startEv
  | frameEv
  | endEv (method : Nat)
  | noneEv
deriving Repr, DecidableEq, Inhabited

/-- `isinstance(event, End)`. -/
def isEnd : PyEv → Bool
  | .endEv _ => true
  | _ => false

/-- What a failed decode raised: a short read in `unpack`
(`struct.error`), the `UnboundLocalError` after the `KeyError` handler
in `_parse_event` only logs, a `ParseError` raised inside
`_parse_event`'s dispatch `try`, or the iteration bound of the loop
model being hit (`parseEventsGo_fuel` proves a sufficient bound, so a
run given that bound never returns it). -/
inductive ParseFailKind where
  | structError
  | unboundLocal
  | innerParse
  | outOfFuel
deriving Repr, DecidableEq

/-- A Python exception escaping the event loop: its kind, the position
the inner `ParseError` carried (if it was one — `_parse_event` records
the event-local `stream.tell()`), and the state of the source stream
when it was raised. -/
structure ParseFail where
  kind : ParseFailKind
  innerPos : Option Nat
  stream : ByteStream
deriving Repr, DecidableEq

/-- One pass of the `_parse_events` loop: bytes consumed (`1 + size`),
the decoded event and its code. -/
structure EvStep where
  b : Nat
  ev : PyEv
  code : Nat
deriving Repr, DecidableEq

def GAME_START_CODE : Nat := 54
def FRAME_PRE_CODE : Nat := 55
def FRAME_POST_CODE : Nat := 56
def GAME_END_CODE : Nat := 57
def FRAME_START_CODE : Nat := 58
def ITEM_CODE : Nat := 59
def FRAME_END_CODE : Nat := 60

/-- Modelled from the spec: `End._parse` (absent `event.py`) reads the
1-byte end method from the event payload; on an empty payload the read
raises with the payload stream still at offset 0. -/
def endParse (payload : List Nat) : Except (Unit × Nat) PyEv :=
  match payload with
  | [] => .error ((), 0)
  | m :: _ => .ok (.endEv m)

/-- The `EVENT_PARSE_DISPATCH` jump table (parse.py lines 82-90) applied
to the payload: `GAME_END` runs `End._parse`; `Start._parse` and the
`Frame.Event` constructors (absent `event.py`) are modelled from the
spec as succeeding decoders; a code with no dispatch entry leaves
`event = None`. -/
def eventDispatch (code : Nat) (payload : List Nat) :
    Except (Unit × Nat) PyEv :=
  if code = GAME_END_CODE then endParse payload
  else if code = GAME_START_CODE then .ok .startEv
  else if code = FRAME_PRE_CODE ∨ code = FRAME_POST_CODE
      ∨ code = FRAME_START_CODE ∨ code = ITEM_CODE
      ∨ code = FRAME_END_CODE then .ok .frameEv
  else .ok .noneEv

/-- Embedding of `_parse_event` (parse.py lines 93-124): read the 1-byte
event code; look up its payload size — a `KeyError` there is caught and
only logged, so the `event_stream.read(size)` that follows raises
`UnboundLocalError` with the source stream just past the code byte; read
the payload and decode it, wrapping a decoder exception in a
`ParseError` that carries the payload-local `stream.tell()`. -/
def parseEvent (sizes : Nat → Option Nat) (s : ByteStream) :
    Except ParseFail (Nat × PyEv × Nat × ByteStream) :=
  let r1 := s.read 1
  match unpack_uint8 r1.1 with
  | .error _ => .error ⟨.structError, none, r1.2⟩
  | .ok code =>
    match sizes code with
    | none => .error ⟨.unboundLocal, none, r1.2⟩
    | some size =>
      let r2 := r1.2.read size
      match eventDispatch code r2.1 with
      | .error (_, ip) => .error ⟨.innerParse, some ip, r2.2⟩
      | .ok ev => .ok (1 + size, ev, code, r2.2)

/-- The `while` guard of `_parse_events` (parse.py line 305):
`(total_size == 0 or bytes_read < total_size) and not
isinstance(event, End)`. -/
def loopGuard (total : Int) (bytesRead : Nat) (ev : PyEv) : Bool :=
  (total == 0 || (bytesRead : Int) < total) && !(isEnd ev)

/-- The loop of `_parse_events` (parse.py lines 299-318) with an
explicit iteration bound: while the guard holds, decode one event and
record one `EvStep`.  `parse_events` below passes a bound of one more
than the remaining bytes, which `parseEventsGo_fuel` proves is never
hit. -/
def parseEventsGo (sizes : Nat → Option Nat) (total : Int) :
    Nat → ByteStream → Nat → PyEv →
    Except ParseFail (List EvStep × Nat × ByteStream)
  | 0, s, _, _ => .error ⟨.outOfFuel, none, s⟩
  | fuel + 1, s, bytesRead, ev =>
    if loopGuard total bytesRead ev then
      match parseEvent sizes s with
      | .error e => .error e
      | .ok (b, ev2, code, s2) =>
        match parseEventsGo sizes total fuel s2 (bytesRead + b) ev2 with
        | .error e => .error e
        | .ok (steps, br, sf) => .ok (⟨b, ev2, code⟩ :: steps, br, sf)
    else .ok ([], bytesRead, s)

/-- Embedding of `_parse_events` on a source stream: run the loop from
`bytes_read = 0` and `event = None`. -/
def parse_events (sizes : Nat → Option Nat) (total : Int) (s : ByteStream) :
    Except ParseFail (List EvStep × Nat × ByteStream) :=
  parseEventsGo sizes total (s.data.length - s.pos + 1) s 0 .noneEv

/-- The `ParseError` that `_parse_try` lets escape: kind and byte
offset. -/
structure ParseErrorData where
  kind : ParseFailKind
  pos : Option Nat
deriving Repr, DecidableEq

/-- Embedding of `_parse_try` (parse.py lines 349-370) around the event
loop: an exception that is not a `ParseError` is wrapped into one with
`pos=None`; then `if not exception.pos` — also true when `pos` is the
falsy `0` — replaces the position with `source.tell()` (the source is
seekable). -/
def parseTry (sizes : Nat → Option Nat) (total : Int) (s : ByteStream) :
    Except ParseErrorData (List EvStep × Nat × ByteStream) :=
  match parse_events sizes total s with
  | .ok r => .ok r
  | .error e =>
    .error { kind := e.kind,
             pos := match e.innerPos with
               | some p => if p = 0 then some e.stream.pos else some p
               | none => some e.stream.pos }

theorem unpack_uint8_ok (b : List Nat) (x : Nat) (h : unpack_uint8 b = .ok x) :
    b = [x] := by
  unfold unpack_uint8 at h
  match b with
  | [] => exact Except.noConfusion h
  | [y] =>
    injection h with h2
    subst h2
    rfl
  | _ :: _ :: _ => exact Except.noConfusion h

theorem parseEvent_ok_consumes (sizes : Nat → Option Nat) (s : ByteStream)
    (b : Nat) (ev : PyEv) (code : Nat) (s2 : ByteStream)
    (h : parseEvent sizes s = .ok (b, ev, code, s2)) :
    s2.data = s.data ∧ s.pos < s2.pos ∧ s2.pos ≤ s.data.length := by
  unfold parseEvent ByteStream.read at h
  dsimp only at h
  split at h
  · exact Except.noConfusion h
  · rename_i code' heq
    have hb := unpack_uint8_ok _ _ heq
    rw [hb] at h
    split at h
    · exact Except.noConfusion h
    · rename_i size hsz
      split at h
      · exact Except.noConfusion h
      · rename_i ev2 hed
        simp only [Except.ok.injEq, Prod.mk.injEq] at h
        obtain ⟨hb', hev, hcode, hs2⟩ := h
        subst hs2
        have hposlt : s.pos < s.data.length := by
          by_contra hc
          have hnil : s.data.drop s.pos = [] :=
            List.drop_eq_nil_of_le (by omega)
          rw [hnil] at hb
          simp at hb
        have hlen2 :
            ((s.data.drop (s.pos + [code'].length)).take size).length ≤
              s.data.length - (s.pos + 1) := by
          simp [List.length_take, List.length_drop]
        refine ⟨rfl, ?_, ?_⟩ <;> dsimp only <;> simp only [List.length_cons,
          List.length_nil] at hlen2 ⊢ <;> omega

theorem parseEvent_error_kind (sizes : Nat → Option Nat) (s : ByteStream)
    (e : ParseFail) (h : parseEvent sizes s = .error e) :
    e.kind ≠ .outOfFuel := by
  unfold parseEvent ByteStream.read at h
  dsimp only at h
  split at h
  · injection h with h2
    subst h2
    simp
  · split at h
    · injection h with h2
      subst h2
      simp
    · split at h
      · injection h with h2
        subst h2
        simp
      · exact Except.noConfusion h

theorem parseEventsGo_fuel (sizes : Nat → Option Nat) (total : Int) :
    ∀ (fuel : Nat) (s : ByteStream) (br : Nat) (ev : PyEv) (e : ParseFail),
      s.data.length - s.pos < fuel →
      parseEventsGo sizes total fuel s br ev = .error e →
      e.kind ≠ .outOfFuel
  | 0, _, _, _, _, hf, _ => absurd hf (by omega)
  | fuel + 1, s, br, ev, e, hf, h => by
    rw [parseEventsGo] at h
    split at h
    · split at h
      · rename_i e' hpe
        injection h with h2
        subst h2
        exact parseEvent_error_kind sizes s e' hpe
      · rename_i b ev2 code s2 hpe
        split at h
        · rename_i e' hrec
          injection h with h2
          subst h2
          obtain ⟨hdat, hlt, hle⟩ := parseEvent_ok_consumes sizes s b ev2 code s2 hpe
          have hlen : s2.data.length = s.data.length := by rw [hdat]
          exact parseEventsGo_fuel sizes total fuel s2 (br + b) ev2 e'
            (by omega) hrec
        · exact Except.noConfusion h
    · exact Except.noConfusion h

/-- Total of the `bytes_read` increments over a list of loop passes. -/
def sumB (steps : List EvStep) : Nat := (steps.map EvStep.b).sum

/-- The value of the loop's `event` variable before pass `k`: the event
decoded by pass `k - 1`, or the initial value for `k = 0`. -/
def evAt (ev0 : PyEv) (steps : List EvStep) (k : Nat) : PyEv :=
  ((steps.take k).map EvStep.ev).getLastD ev0

theorem sumB_cons (st : EvStep) (steps : List EvStep) :
    sumB (st :: steps) = st.b + sumB steps := by
  unfold sumB
  simp

theorem evAt_cons_succ (ev0 : PyEv) (st : EvStep) (steps : List EvStep)
    (k : Nat) : evAt ev0 (st :: steps) (k + 1) = evAt st.ev steps k := by
  unfold evAt
  rw [List.take_succ_cons, List.map_cons, List.getLastD_cons]

theorem evAt_succ_get :
    ∀ (ev0 : PyEv) (steps : List EvStep) (j : Nat) (hj : j < steps.length),
      evAt ev0 steps (j + 1) = (steps.get ⟨j, hj⟩).ev
  | _, st :: _, 0, _ => by rw [evAt_cons_succ]; rfl
  | _, st :: rest, j + 1, hj => by
    rw [evAt_cons_succ]
    exact evAt_succ_get st.ev rest j (by simpa using hj)

theorem parseEventsGo_guard (sizes : Nat → Option Nat) (total : Int) :
    ∀ (fuel : Nat) (s : ByteStream) (br : Nat) (ev : PyEv)
      (steps : List EvStep) (br2 : Nat) (s2 : ByteStream),
      parseEventsGo sizes total fuel s br ev = .ok (steps, br2, s2) →
      (∀ k, k < steps.length →
        loopGuard total (br + sumB (steps.take k)) (evAt ev steps k) = true) ∧
      loopGuard total (br + sumB steps) (evAt ev steps steps.length) = false ∧
      br2 = br + sumB steps
  | 0, _, _, _, _, _, _, h => Except.noConfusion h
  | fuel + 1, s, br, ev, steps, br2, s2, h => by
    rw [parseEventsGo] at h
    split at h
    · rename_i hg
      split at h
      · exact Except.noConfusion h
      · rename_i b ev2 code sMid hpe
        split at h
        · exact Except.noConfusion h
        · rename_i steps0 br0 sf hrec
          simp only [Except.ok.injEq, Prod.mk.injEq] at h
          obtain ⟨hsteps, hbr, hs⟩ := h
          subst hsteps
          subst hbr
          obtain ⟨hk, hfin, hbr'⟩ :=
            parseEventsGo_guard sizes total fuel sMid (br + b) ev2 steps0 br0 sf hrec
          refine ⟨?_, ?_, ?_⟩
          · intro k hklen
            cases k with
            | zero => simpa [sumB, evAt] using hg
            | succ j =>
              have hj : j < steps0.length := by simpa using hklen
              have hgj := hk j hj
              rw [List.take_succ_cons, sumB_cons, evAt_cons_succ, ← Nat.add_assoc]
              exact hgj
          · rw [List.length_cons, evAt_cons_succ, sumB_cons, ← Nat.add_assoc]
            exact hfin
          · rw [sumB_cons, ← Nat.add_assoc]
            exact hbr'
    · rename_i hg
      simp only [Except.ok.injEq, Prod.mk.injEq] at h
      obtain ⟨hsteps, hbr, hs⟩ := h
      subst hsteps
      subst hbr
      have hfalse : loopGuard total br ev = false := by
        cases hLG : loopGuard total br ev
        · rfl
        · exact absurd hLG hg
      refine ⟨?_, ?_, ?_⟩
      · intro k hk
        simp at hk
      · simpa [sumB, evAt] using hfalse
      · simp [sumB]

/-- Claim C5 (confirmed).  The `_parse_events` loop terminates: with an
iteration bound of one more than the bytes remaining, a failing run
never reports the bound (first conjunct — every successful decode
consumes at least one byte, so the loop cannot iterate further than the
bound).  A completed run stops exactly where the guard
`(total_size == 0 or bytes_read < total_size) and not
isinstance(event, End)` first fails: the guard holds before every
executed pass and fails after the last one (second conjunct).  In
particular, for a zero announced length a completed run decoded at
least one event, its last decoded event — and none before it — is the
end-of-game record, so the loop terminated exactly when that record was
decoded (third conjunct). -/
theorem claim_C5_event_loop_termination
    (sizes : Nat → Option Nat) (total : Int) (s : ByteStream) :
    (∀ e, parse_events sizes total s = .error e → e.kind ≠ .outOfFuel) ∧
    (∀ steps br2 s2, parse_events sizes total s = .ok (steps, br2, s2) →
      (∀ k, k < steps.length →
        loopGuard total (sumB (steps.take k)) (evAt .noneEv steps k) = true) ∧
      loopGuard total (sumB steps) (evAt .noneEv steps steps.length) = false) ∧
    (total = 0 → ∀ steps br2 s2,
      parse_events sizes total s = .ok (steps, br2, s2) →
      steps ≠ [] ∧ isEnd ((steps.map EvStep.ev).getLastD .noneEv) = true ∧
      ∀ st ∈ steps.dropLast, isEnd st.ev = false) := by
  refine ⟨?_, ?_, ?_⟩
  · intro e h
    exact parseEventsGo_fuel sizes total _ s 0 .noneEv e (by omega) h
  · intro steps br2 s2 h
    obtain ⟨hk, hfin, _⟩ :=
      parseEventsGo_guard sizes total _ s 0 .noneEv steps br2 s2 h
    exact ⟨fun k hkl => by simpa using hk k hkl, by simpa using hfin⟩
  · intro ht steps br2 s2 h
    subst ht
    obtain ⟨hk, hfin, _⟩ :=
      parseEventsGo_guard sizes 0 _ s 0 .noneEv steps br2 s2 h
    have hlast : isEnd (evAt .noneEv steps steps.length) = true := by
      simp [loopGuard] at hfin
      exact hfin
    have hne : steps ≠ [] := by
      intro hnil
      subst hnil
      simp [evAt, isEnd] at hlast
    refine ⟨hne, ?_, ?_⟩
    · have : evAt .noneEv steps steps.length =
          (steps.map EvStep.ev).getLastD .noneEv := by
        unfold evAt
        rw [List.take_length]
      rw [← this]
      exact hlast
    · intro st hst
      obtain ⟨j, hj, hstj⟩ := List.getElem_of_mem hst
      have hj' : j < steps.length - 1 := by
        simpa [List.length_dropLast] using hj
      have hjlen : j < steps.length := by omega
      have hguard := hk (j + 1) (by omega)
      simp [loopGuard] at hguard
      have hev : evAt .noneEv steps (j + 1) = (steps.get ⟨j, hjlen⟩).ev :=
        evAt_succ_get .noneEv steps j hjlen
      rw [hev] at hguard
      rw [← hstj]
      have hdl : steps.dropLast[j] = steps[j] := List.getElem_dropLast steps j hj
      rw [hdl]
      exact hguard

def exC5sizes : Nat → Option Nat := fun c =>
  if c = 55 then some 4 else if c = 57 then some 1 else none

/-- A zero-announced-length stream: one frame-pre event (code `0x37`,
payload size 4) followed by a game-end event (code `0x39`, payload
size 1). -/
def exC5data : List Nat := [55, 9, 9, 9, 9, 57, 7]

def exC5steps : List EvStep :=
  [⟨5, .frameEv, 55⟩, ⟨2, .endEv 7, 57⟩]

theorem claim_C5_witness :
    parse_events exC5sizes 0 ⟨exC5data, 0⟩ = .ok (exC5steps, 7, ⟨exC5data, 7⟩) ∧
    exC5steps ≠ [] ∧
    isEnd ((exC5steps.map EvStep.ev).getLastD .noneEv) = true ∧
    ∀ st ∈ exC5steps.dropLast, isEnd st.ev = false := by
  have hrun : parse_events exC5sizes 0 ⟨exC5data, 0⟩ =
      .ok (exC5steps, 7, ⟨exC5data, 7⟩) := by rfl
  have h := (claim_C5_event_loop_termination exC5sizes 0 ⟨exC5data, 0⟩).2.2
    rfl exC5steps 7 ⟨exC5data, 7⟩ hrun
  exact ⟨hrun, h.1, h.2.1, h.2.2⟩

/-- Claim C4 (confirmed).  When the 1-byte event code read at the
current position is absent from the payload-size table, decoding stops
right there: `_parse_event` raises with the source just past the code
byte (first conjunct; inside `_parse_event` the `KeyError` is only
logged and the raise is the `UnboundLocalError` on the unset `size`),
the event loop returns that error without decoding further (second
conjunct), and `_parse_try` turns it into the single typed `ParseError`
carrying the byte offset `source.tell()` — one past the unknown code
byte (third conjunct). -/
theorem claim_C4_unknown_code_error
    (sizes : Nat → Option Nat) (total : Int) (s : ByteStream) (c : Nat)
    (hc : s.data.get? s.pos = some c)
    (hu : sizes c = none)
    (ht : total = 0 ∨ 0 < total) :
    parseEvent sizes s = .error ⟨.unboundLocal, none, ⟨s.data, s.pos + 1⟩⟩ ∧
    parse_events sizes total s =
      .error ⟨.unboundLocal, none, ⟨s.data, s.pos + 1⟩⟩ ∧
    parseTry sizes total s = .error ⟨.unboundLocal, some (s.pos + 1)⟩ := by
  have hlt : s.pos < s.data.length := by
    by_contra hge
    rw [List.get?_eq_none.mpr (by omega)] at hc
    exact Option.noConfusion hc
  have hchunk : (s.data.drop s.pos).take 1 = [c] := by
    cases hd : s.data.drop s.pos with
    | nil =>
      exfalso
      have := congrArg List.length hd
      simp [List.length_drop] at this
      omega
    | cons y t =>
      have h0 : (s.data.drop s.pos).get? 0 = some c := by
        rw [List.get?_drop]
        simpa using hc
      rw [hd] at h0
      simp at h0
      subst h0
      rfl
  have h1 : parseEvent sizes s =
      .error ⟨.unboundLocal, none, ⟨s.data, s.pos + 1⟩⟩ := by
    unfold parseEvent ByteStream.read
    dsimp only
    rw [hchunk]
    dsimp only [unpack_uint8]
    rw [hu]
    rfl
  have hg : loopGuard total 0 .noneEv = true := by
    simp [loopGuard, isEnd]
    rcases ht with h | h
    · exact Or.inl (by simp [h])
    · exact Or.inr (by simpa using h)
  have h2 : parse_events sizes total s =
      .error ⟨.unboundLocal, none, ⟨s.data, s.pos + 1⟩⟩ := by
    unfold parse_events
    rw [parseEventsGo, hg, if_pos rfl, h1]
  refine ⟨h1, h2, ?_⟩
  unfold parseTry
  rw [h2]

def exC4sizes : Nat → Option Nat := fun c => if c = 55 then some 4 else none

theorem claim_C4_witness :
    exC4sizes 99 = none ∧
    parseTry exC4sizes 0 ⟨[99], 0⟩ = .error ⟨.unboundLocal, some 1⟩ :=
  ⟨rfl, (claim_C4_unknown_code_error exC4sizes 0 ⟨[99], 0⟩ 99 rfl rfl
    (Or.inl rfl)).2.2⟩

/-- Claim C10 (confirmed).  At frame index 0 the classifiers' `i - 1`
and `i - 2` lookups wrap around: evaluated through Python's negative
indexing (`pyGet`), `frames[0 - 1]` is the last element and
`frames[0 - 2]` the second-to-last (first two conjuncts, phrased over
`dash_compute`'s frame type).  Consequently `dashStep` at `i = 0`
detects a rising edge into `DASH` by comparing the first frame against
the LAST frame of the game: when frame 0 is in `DASH` and the final
frame is in neither `DASH` nor `TURN`, it opens a dash record at frame
index 0 (third conjunct).  The same wraparound feeds `combo_compute`'s
previous-frame pair (fourth conjunct, phrased over its frame-pair
type). -/
theorem claim_C10_first_frame_wraparound
    (frames : List DFrame) (st : DState) (h2 : 2 ≤ frames.length) :
    pyGet frames (((0 : Nat) : Int) - 1) = frames.getLast? ∧
    pyGet frames (((0 : Nat) : Int) - 2) = frames.get? (frames.length - 2) ∧
    ((frames.getD 0 default).state = DASH →
      (frames.getD (frames.length - 1) default).state ≠ DASH →
      (frames.getD (frames.length - 1) default).state ≠ TURN →
      dashStep frames 0 st =
        .ok { dash_state := some
                { frame_index := 0,
                  stocks_remaining := (frames.getD 0 default).stocks,
                  direction := (frames.getD 0 default).facing,
                  start_pos := (frames.getD 0 default).xpos,
                  end_pos := 0, is_dashdance := false },
              dashes := st.dashes }) ∧
    (∀ (cf : List CFramePair) (hcne : cf ≠ []),
      (pyGet cf (((0 : Nat) : Int) - 1)).getD default = cf.getLast hcne) := by
  have hne : frames ≠ [] := by
    intro h
    subst h
    simp at h2
  have hm1 : ((0 : Nat) : Int) - 1 = -1 := by norm_num
  have hm2 : ((0 : Nat) : Int) - 2 = -2 := by norm_num
  have hlastD : frames.getLast hne = frames.getD (frames.length - 1) default := by
    rw [List.getLast_eq_getElem, List.getD_eq_get frames default (by omega),
      List.get_eq_getElem]
  have hp1 : pyGet frames (((0 : Nat) : Int) - 1) =
      some (frames.getD (frames.length - 1) default) := by
    rw [hm1, pyGet_neg_one frames hne, hlastD]
  refine ⟨?_, ?_, ?_, ?_⟩
  · rw [hm1, pyGet_neg_one frames hne, List.getLast?_eq_getLast frames hne]
  · rw [hm2, pyGet_neg_two frames h2, List.get?_eq_get (by omega)]
  · intro hcur hpd hpt
    have hc := get?_eq_some_getD frames 0 (by omega)
    obtain ⟨pp, hpp⟩ := pyGet_isSome frames (((0 : Nat) : Int) - 2)
      (by omega) (by omega)
    simp only [dashStep, hc, hp1, hpp]
    rw [show just_entered_state DASH (frames.getD 0 default).state
        (frames.getD (frames.length - 1) default).state = true by
      simp only [just_entered_state, hcur, beq_self_eq_true, Bool.true_and,
        bne_iff_ne]
      exact hpd]
    rw [if_pos rfl]
    rw [if_neg (show ¬((frames.getD (frames.length - 1) default).state = TURN ∧
        pp.state = DASH) from fun hand => hpt hand.1)]
    rw [show just_exited_state DASH (frames.getD 0 default).state
        (frames.getD (frames.length - 1) default).state = false by
      simp only [just_exited_state, hcur, bne_self_eq_false, Bool.false_and]]
    rfl
  · intro cf hcne
    rw [hm1, pyGet_neg_one cf hcne]
    rfl

/-- Three frames: `DASH` on frame 0, `WAIT` on the final two. -/
def exC10 : List DFrame :=
  [⟨DASH, 1, 0, 4⟩, ⟨WAIT, 1, 5, 4⟩, ⟨WAIT, 1, 9, 4⟩]

theorem claim_C10_witness :
    pyGet exC10 (((0 : Nat) : Int) - 1) = exC10.getLast? ∧
    pyGet exC10 (((0 : Nat) : Int) - 2) = exC10.get? (exC10.length - 2) ∧
    dashStep exC10 0 ⟨none, []⟩ = .ok ⟨some ⟨0, 4, 1, 0, 0, false⟩, []⟩ := by
  obtain ⟨ha, hb, hc, _⟩ :=
    claim_C10_first_frame_wraparound exC10 ⟨none, []⟩ (by decide)
  refine ⟨ha, hb, ?_⟩
  rw [hc (by decide) (by decide) (by decide)]
  rfl
